import Mathlib

/-!
Shallow embedding of the workout progression engine of
`src/composables/useWorkout.js` (othercodes/workout-timer).

Modelling conventions:
* JavaScript numbers that hold whole seconds are modelled as `Nat` inside the
  workout definition and as `Int` for the mutable `timeLeft` cell, so that
  non-negativity of `timeLeft` is a theorem rather than a typing artifact.
* Optional numeric fields that the source reads through JS truthiness
  (`exercise.perSideDuration`, `exercise.switchRestDuration || 5`,
  `phase.restBetweenRounds`) are modelled as `Nat` with `0` playing the role
  of "absent or falsy", exactly matching how the source branches on them.
* Presentational fields (names, icons, instruction strings) are not part of
  any claim and are omitted from the record types.
* Out-of-range list accesses, which in the source would read `undefined`
  (and can only happen for malformed catalogs that the spec rules out of
  scope), are modelled with `List.getD _ default`.
* Each audio hook call site (`playStart`, `playChange`, `playPhaseEnd`,
  `playCountdown`) is modelled as an emitted `Cue` value; the source guards
  every call with `soundEnabled`, which is kept in the state.
-/

inductive Side where
  | left
  | right
deriving DecidableEq, Repr, Inhabited

inductive PhaseType where
  | warmup
  | workout
  | cooldown
deriving DecidableEq, Repr, Inhabited

structure Exercise where
  duration : Nat
  restAfter : Nat
  bilateral : Bool
  perSideDuration : Nat
  switchRestDuration : Nat
deriving DecidableEq, Repr, Inhabited

structure Phase where
  type : PhaseType
  rounds : Nat
  restBetweenRounds : Nat
  exercises : List Exercise
deriving DecidableEq, Repr, Inhabited

structure Workout where
  phases : List Phase
deriving DecidableEq, Repr, Inhabited

/-- The four audio hooks of the audio collaborator, as invoked from the
engine's call sites. -/
inductive Cue where
  | start
  | change
  | phaseEnd
  | countdown (n : Int)
deriving DecidableEq, Repr

/-- The mutable refs owned by `useWorkout`. -/
structure WorkoutState where
  selectedWorkout : Option Workout
  phaseIndex : Nat
  exerciseIndex : Nat
  round : Nat
  timeLeft : Int
  isResting : Bool
  isRoundRest : Bool
  isRunning : Bool
  isStarted : Bool
  isFinished : Bool
  soundEnabled : Bool
  currentSide : Option Side
  isSwitchingSides : Bool
  partnerMode : Bool
deriving DecidableEq, Repr

/-- The `PARTNER_REST_BONUS`: extra seconds for equipment handoff. -/
def PARTNER_REST_BONUS : Nat := 5

/-- The `currentPhase` computed: `selectedWorkout.value?.phases[phaseIndex.value]`. -/
def currentPhase (s : WorkoutState) : Option Phase :=
  s.selectedWorkout.bind fun w => w.phases.get? s.phaseIndex

/-- The `currentExercise` computed: `currentPhase.value?.exercises[exerciseIndex.value]`. -/
def currentExercise (s : WorkoutState) : Option Exercise :=
  (currentPhase s).bind fun p => p.exercises.get? s.exerciseIndex

/-- The `totalExercises` computed: `currentPhase.value?.exercises.length || 0`. -/
def totalExercises (s : WorkoutState) : Nat :=
  match currentPhase s with
  | some p => p.exercises.length
  | none => 0

/-- The `totalRounds` computed: `currentPhase.value?.rounds || 1`. -/
def totalRounds (s : WorkoutState) : Nat :=
  match currentPhase s with
  | some p => if p.rounds = 0 then 1 else p.rounds
  | none => 1

/-- The `isBilateralExercise` computed: `currentExercise.value?.bilateral === true`. -/
def isBilateralExercise (s : WorkoutState) : Bool :=
  match currentExercise s with
  | some e => e.bilateral
  | none => false

/-- The `isWorkoutPhase` computed: `currentPhase.value?.type === 'workout'`. -/
def isWorkoutPhase (s : WorkoutState) : Bool :=
  match currentPhase s with
  | some p => p.type == PhaseType.workout
  | none => false

/-- The `partnerExerciseIndex` computed: partner's exercise is offset by 1 and
wraps around; `null` outside partner mode or outside workout-type phases. -/
def partnerExerciseIndex (s : WorkoutState) : Option Nat :=
  if s.partnerMode && isWorkoutPhase s then
    some ((s.exerciseIndex + 1) % totalExercises s)
  else none

/-- The `partnerExercise` computed. -/
def partnerExercise (s : WorkoutState) : Option Exercise :=
  match partnerExerciseIndex s with
  | some i => (currentPhase s).bind fun p => p.exercises.get? i
  | none => none

/-- The `getEffectiveDuration`: total duration of an exercise —
`perSideDuration * 2 + (switchRestDuration || 5)` when `bilateral &&
perSideDuration` is truthy, else `duration`. -/
def getEffectiveDuration (exercise : Exercise) : Nat :=
  if exercise.bilateral && exercise.perSideDuration != 0 then
    (exercise.perSideDuration * 2) +
      (if exercise.switchRestDuration = 0 then 5 else exercise.switchRestDuration)
  else exercise.duration

/-- The `getExerciseDuration`: initial timer value when starting an exercise. -/
def getExerciseDuration (exercise : Exercise) : Nat :=
  if exercise.bilateral && exercise.perSideDuration != 0 then
    exercise.perSideDuration
  else exercise.duration

/-- The `initializeExercise`: sets `currentSide` and returns the initial
`timeLeft` (`exercise.perSideDuration || exercise.duration` for bilateral). -/
def initializeExercise (s : WorkoutState) (exercise : Exercise) : WorkoutState :=
  if exercise.bilateral then
    { s with currentSide := some Side.left,
             timeLeft := ((if exercise.perSideDuration = 0 then exercise.duration
                           else exercise.perSideDuration : Nat) : Int) }
  else
    { s with currentSide := none, timeLeft := (exercise.duration : Int) }

/-- The `getPartnerModeRestDuration`: max rest of the pair plus the handoff bonus. -/
def getPartnerModeRestDuration (exerciseA exerciseB : Exercise) : Nat :=
  max exerciseA.restAfter exerciseB.restAfter + PARTNER_REST_BONUS

/-- The `initializeExerciseWithPartnerMode`: in partner mode with a partner
exercise present, suspend side tracking and use the max effective duration;
otherwise behave like `initializeExercise`. -/
def initializeExerciseWithPartnerMode (s : WorkoutState) (exercise : Exercise)
    (partnerEx : Option Exercise) : WorkoutState :=
  match partnerEx with
  | some p =>
    if s.partnerMode then
      { s with currentSide := none, isSwitchingSides := false,
               timeLeft := ((max (getEffectiveDuration exercise)
                                 (getEffectiveDuration p) : Nat) : Int) }
    else initializeExercise s exercise
  | none => initializeExercise s exercise

/-- The `partnerModeMaxDuration` computed. -/
def partnerModeMaxDuration (s : WorkoutState) : Option Nat :=
  if s.partnerMode && isWorkoutPhase s then
    match currentExercise s, partnerExercise s with
    | some a, some b => some (max (getEffectiveDuration a) (getEffectiveDuration b))
    | _, _ => none
  else none

/-- The `partnerModeElapsed` computed: `0` when the max duration is null or `0`
(JS falsiness), else `maxDuration - timeLeft`. -/
def partnerModeElapsed (s : WorkoutState) : Int :=
  match partnerModeMaxDuration s with
  | some d => if d = 0 then 0 else (d : Int) - s.timeLeft
  | none => 0

/-- The `personAFinishedEarly` computed. -/
def personAFinishedEarly (s : WorkoutState) : Bool :=
  if !s.partnerMode || !isWorkoutPhase s || s.isResting || s.isRoundRest then false
  else
    match currentExercise s, partnerExercise s with
    | some a, some _ =>
      decide ((getEffectiveDuration a : Int) ≤ partnerModeElapsed s)
    | _, _ => false

/-- The `partnerFinishedEarly` computed (Person B). -/
def partnerFinishedEarly (s : WorkoutState) : Bool :=
  if !s.partnerMode || !isWorkoutPhase s || s.isResting || s.isRoundRest then false
  else
    match currentExercise s, partnerExercise s with
    | some _, some b =>
      decide ((getEffectiveDuration b : Int) ≤ partnerModeElapsed s)
    | _, _ => false

/-- A cue is emitted only when `soundEnabled` (every call site is guarded by
`if (soundEnabled.value)`). -/
def emitIf (s : WorkoutState) (c : Cue) : Option Cue :=
  if s.soundEnabled then some c else none

/-- The `goToNextPhase`: advance to the next phase, or finish the workout when
none remains. (`stopTimer()` has no counterpart in the state model; the tick
driver below only runs through explicit `tick` applications.) -/
def goToNextPhase (s : WorkoutState) : WorkoutState × Option Cue :=
  if s.selectedWorkout.isNone then (s, none)
  else
    let w := s.selectedWorkout.getD default
    let nextPhaseIdx := s.phaseIndex + 1
    if nextPhaseIdx ≥ w.phases.length then
      ({ s with isFinished := true, isRunning := false }, emitIf s Cue.phaseEnd)
    else
      let firstExercise := (w.phases.getD nextPhaseIdx default).exercises.getD 0 default
      let s1 := { s with phaseIndex := nextPhaseIdx, exerciseIndex := 0, round := 1,
                         currentSide := none, isSwitchingSides := false }
      (initializeExercise s1 firstExercise, emitIf s Cue.phaseEnd)

/-- The final block of `nextStep` ("normal exercise end - go to rest or next
exercise"), factored out and applied to the state after the bilateral
right-side reset. `s0` differs from the entry state at most in
`currentSide`, so reading `soundEnabled` from `s0` is the same as reading it
from the entry state. -/
def nextStepExerciseEnd (s0 : WorkoutState) : WorkoutState × Option Cue :=
  let e := (currentExercise s0).getD default
  let partnerRest : Bool :=
    match partnerExercise s0 with
    | some p => p.restAfter != 0
    | none => false
  if e.restAfter != 0 || (s0.partnerMode && isWorkoutPhase s0 && partnerRest) then
    if (s0.partnerMode && isWorkoutPhase s0) && (partnerExercise s0).isSome then
      let p := (partnerExercise s0).getD default
      ({ s0 with isResting := true,
                 timeLeft := (getPartnerModeRestDuration e p : Int) },
       emitIf s0 Cue.change)
    else
      ({ s0 with isResting := true, timeLeft := (e.restAfter : Int) },
       emitIf s0 Cue.change)
  else
    let nextEx := s0.exerciseIndex + 1
    if nextEx ≥ totalExercises s0 then
      if s0.round < totalRounds s0 then
        let ph := (currentPhase s0).getD default
        if ph.restBetweenRounds ≠ 0 then
          ({ s0 with round := s0.round + 1, isRoundRest := true,
                     timeLeft := (ph.restBetweenRounds : Int) },
           emitIf s0 Cue.change)
        else
          let firstExercise := ph.exercises.getD 0 default
          let s1 := { s0 with round := s0.round + 1, exerciseIndex := 0 }
          (initializeExercise s1 firstExercise, emitIf s0 Cue.change)
      else goToNextPhase s0
    else
      let ph := (currentPhase s0).getD default
      let s1 := { s0 with exerciseIndex := nextEx }
      (initializeExercise s1 (ph.exercises.getD nextEx default), emitIf s0 Cue.change)

/-- The `nextStep`: the core advance transition. -/
def nextStep (s : WorkoutState) : WorkoutState × Option Cue :=
  if s.selectedWorkout.isNone then (s, none)
  else
    -- end of switch rest (normal mode only)
    if s.isSwitchingSides && !(s.partnerMode && isWorkoutPhase s) then
      let e := (currentExercise s).getD default
      ({ s with isSwitchingSides := false, currentSide := some Side.right,
                timeLeft := (e.perSideDuration : Int) }, emitIf s Cue.start)
    -- end of round rest
    else if s.isRoundRest then
      let ph := (currentPhase s).getD default
      let firstExercise := ph.exercises.getD 0 default
      let partnerEx :=
        if s.partnerMode && isWorkoutPhase s then
          ph.exercises.get? (1 % totalExercises s)
        else none
      let s1 := { s with isRoundRest := false, exerciseIndex := 0 }
      (initializeExerciseWithPartnerMode s1 firstExercise partnerEx, emitIf s Cue.start)
    -- end of regular rest (between exercises)
    else if s.isResting then
      let nextEx := s.exerciseIndex + 1
      if nextEx ≥ totalExercises s then
        if s.round < totalRounds s then
          let ph := (currentPhase s).getD default
          if ph.restBetweenRounds ≠ 0 then
            ({ s with round := s.round + 1, isRoundRest := true,
                      timeLeft := (ph.restBetweenRounds : Int), isResting := false },
             emitIf s Cue.change)
          else
            let firstExercise := ph.exercises.getD 0 default
            let partnerEx :=
              if s.partnerMode && isWorkoutPhase s then
                ph.exercises.get? (1 % totalExercises s)
              else none
            let s1 := { s with round := s.round + 1, exerciseIndex := 0 }
            let s2 := initializeExerciseWithPartnerMode s1 firstExercise partnerEx
            ({ s2 with isResting := false }, emitIf s Cue.start)
        else
          let r := goToNextPhase s
          ({ r.1 with isResting := false }, r.2)
      else
        let ph := (currentPhase s).getD default
        let nextExercise := ph.exercises.getD nextEx default
        let partnerEx :=
          if s.partnerMode && isWorkoutPhase s then
            ph.exercises.get? ((nextEx + 1) % totalExercises s)
          else none
        let s1 := { s with exerciseIndex := nextEx }
        let s2 := initializeExerciseWithPartnerMode s1 nextExercise partnerEx
        ({ s2 with isResting := false }, emitIf s Cue.start)
    -- end of exercise (or of a bilateral side)
    else
      if !(s.partnerMode && isWorkoutPhase s) &&
         (isBilateralExercise s && (s.currentSide == some Side.left)) then
        let e := (currentExercise s).getD default
        let switchDuration := if e.switchRestDuration = 0 then 5 else e.switchRestDuration
        ({ s with isSwitchingSides := true, timeLeft := (switchDuration : Int) },
         emitIf s Cue.change)
      else
        -- reset bilateral state when the exercise completes (normal mode)
        nextStepExerciseEnd
          (if !(s.partnerMode && isWorkoutPhase s) &&
              (isBilateralExercise s && (s.currentSide == some Side.right)) then
            { s with currentSide := none }
          else s)

/-- The shared backward-walk of `prevStep`: the source duplicates this block
verbatim in the "bilateral && left" branch and in the final "normal" branch
(lines 434-473 and 476-512), so it is factored here once. -/
def prevStepWalk (s : WorkoutState) : WorkoutState :=
  if s.exerciseIndex > 0 then
    let ph := (currentPhase s).getD default
    let prevExercise := ph.exercises.getD (s.exerciseIndex - 1) default
    if prevExercise.bilateral then
      { s with exerciseIndex := s.exerciseIndex - 1, currentSide := some Side.right,
               timeLeft := (prevExercise.perSideDuration : Int) }
    else
      { s with exerciseIndex := s.exerciseIndex - 1, currentSide := none,
               timeLeft := (prevExercise.duration : Int) }
  else if s.round > 1 then
    let ph := (currentPhase s).getD default
    let lastEx := totalExercises s - 1
    let lastExercise := ph.exercises.getD lastEx default
    if lastExercise.bilateral then
      { s with round := s.round - 1, exerciseIndex := lastEx,
               currentSide := some Side.right,
               timeLeft := (lastExercise.perSideDuration : Int) }
    else
      { s with round := s.round - 1, exerciseIndex := lastEx, currentSide := none,
               timeLeft := (lastExercise.duration : Int) }
  else if s.phaseIndex > 0 then
    let w := s.selectedWorkout.getD default
    let prevPhase := w.phases.getD (s.phaseIndex - 1) default
    let lastEx := prevPhase.exercises.length - 1
    let lastExercise := prevPhase.exercises.getD lastEx default
    if lastExercise.bilateral then
      { s with phaseIndex := s.phaseIndex - 1, round := prevPhase.rounds,
               exerciseIndex := lastEx, currentSide := some Side.right,
               timeLeft := (lastExercise.perSideDuration : Int) }
    else
      { s with phaseIndex := s.phaseIndex - 1, round := prevPhase.rounds,
               exerciseIndex := lastEx, currentSide := none,
               timeLeft := (lastExercise.duration : Int) }
  else s

/-- The `prevStep`: the retreat transition. It emits no cues (no `play*` call
occurs anywhere in its body). -/
def prevStep (s : WorkoutState) : WorkoutState :=
  if s.selectedWorkout.isNone then s
  else
    -- going back during switch rest
    if s.isSwitchingSides then
      let e := (currentExercise s).getD default
      { s with isSwitchingSides := false, currentSide := some Side.left,
               timeLeft := (e.perSideDuration : Int) }
    -- going back from the right side to the left side
    else if isBilateralExercise s && (s.currentSide == some Side.right) then
      let e := (currentExercise s).getD default
      { s with currentSide := some Side.left, timeLeft := (e.perSideDuration : Int) }
    else if s.isRoundRest then
      let lastEx := totalExercises s - 1
      let ph := (currentPhase s).getD default
      let lastExercise := ph.exercises.getD lastEx default
      let s1 := initializeExercise
        { s with isRoundRest := false, exerciseIndex := lastEx } lastExercise
      if lastExercise.bilateral then { s1 with currentSide := some Side.left } else s1
    else if s.isResting then
      if isBilateralExercise s then
        let e := (currentExercise s).getD default
        { s with isResting := false, currentSide := some Side.right,
                 timeLeft := (e.perSideDuration : Int) }
      else
        let e := (currentExercise s).getD default
        { s with isResting := false, timeLeft := (e.duration : Int) }
    else if isBilateralExercise s && (s.currentSide == some Side.left) then
      prevStepWalk s
    else
      prevStepWalk s

/-- One firing of the `setInterval` callback installed by `startTimer`. -/
def tick (s : WorkoutState) : WorkoutState × Option Cue :=
  if s.timeLeft ≤ 1 then nextStep s
  else if s.timeLeft ≤ 4 ∧ s.timeLeft > 1 ∧ s.soundEnabled then
    ({ s with timeLeft := s.timeLeft - 1 }, some (Cue.countdown (s.timeLeft - 1)))
  else ({ s with timeLeft := s.timeLeft - 1 }, none)

/-- The `toggleRunning`: a pure flag flip, with no selection guard. -/
def toggleRunning (s : WorkoutState) : WorkoutState :=
  { s with isRunning := !s.isRunning }

/-- The `resetWorkoutState`. -/
def resetWorkoutState (s : WorkoutState) : WorkoutState :=
  { s with phaseIndex := 0, exerciseIndex := 0, round := 1, timeLeft := 0,
           isResting := false, isRoundRest := false, isRunning := false,
           isStarted := false, isFinished := false, currentSide := none,
           isSwitchingSides := false }

/-- The `goToSelection`: drop the selection and reset. -/
def goToSelection (s : WorkoutState) : WorkoutState :=
  resetWorkoutState { s with selectedWorkout := none }

/-- The `goToOverview`. -/
def goToOverview (s : WorkoutState) : WorkoutState :=
  { s with isRunning := false, isStarted := false }

/-- The `start`. -/
def start (s : WorkoutState) : WorkoutState × Option Cue :=
  if s.selectedWorkout.isNone then (s, none)
  else
    let w := s.selectedWorkout.getD default
    let firstPhase := w.phases.getD 0 default
    let firstExercise := firstPhase.exercises.getD 0 default
    let s1 :=
      if s.partnerMode && (firstPhase.type == PhaseType.workout) then
        let partnerEx := firstPhase.exercises.get? (1 % firstPhase.exercises.length)
        initializeExerciseWithPartnerMode s firstExercise partnerEx
      else initializeExercise s firstExercise
    ({ s1 with isStarted := true, isRunning := true }, emitIf s Cue.start)

/-- The `setPartnerMode`. -/
def setPartnerMode (s : WorkoutState) (enabled : Bool) : WorkoutState :=
  { s with partnerMode := enabled }

/-- The `togglePartnerMode`. -/
def togglePartnerMode (s : WorkoutState) : WorkoutState :=
  { s with partnerMode := !s.partnerMode }

/-- The `startFromPhase`: jump directly into a phase; no-op when no workout is
selected or the target index is out of range. -/
def startFromPhase (s : WorkoutState) (targetPhaseIndex : Int) : WorkoutState × Option Cue :=
  if s.selectedWorkout.isNone then (s, none)
  else
    let w := s.selectedWorkout.getD default
    if targetPhaseIndex < 0 ∨ (w.phases.length : Int) ≤ targetPhaseIndex then (s, none)
    else
      let idx := targetPhaseIndex.toNat
      let targetPhase := w.phases.getD idx default
      let firstExercise := targetPhase.exercises.getD 0 default
      let s1 := { s with phaseIndex := idx, exerciseIndex := 0, round := 1 }
      let s2 :=
        if s.partnerMode && (targetPhase.type == PhaseType.workout) then
          let partnerEx := targetPhase.exercises.get? (1 % targetPhase.exercises.length)
          initializeExerciseWithPartnerMode s1 firstExercise partnerEx
        else initializeExercise s1 firstExercise
      ({ s2 with isResting := false, isRoundRest := false, isSwitchingSides := false,
                 isStarted := true, isRunning := true, isFinished := false },
       emitIf s Cue.start)

/-- The `goToPhase`: jump while running; additionally a no-op when the target
equals the current phase. -/
def goToPhase (s : WorkoutState) (targetPhaseIndex : Int) : WorkoutState × Option Cue :=
  if s.selectedWorkout.isNone then (s, none)
  else
    let w := s.selectedWorkout.getD default
    if targetPhaseIndex < 0 ∨ (w.phases.length : Int) ≤ targetPhaseIndex then (s, none)
    else if targetPhaseIndex = (s.phaseIndex : Int) then (s, none)
    else
      let idx := targetPhaseIndex.toNat
      let targetPhase := w.phases.getD idx default
      let firstExercise := targetPhase.exercises.getD 0 default
      let s1 := { s with phaseIndex := idx, exerciseIndex := 0, round := 1 }
      let s2 :=
        if s.partnerMode && (targetPhase.type == PhaseType.workout) then
          let partnerEx := targetPhase.exercises.get? (1 % targetPhase.exercises.length)
          initializeExerciseWithPartnerMode s1 firstExercise partnerEx
        else initializeExercise s1 firstExercise
      ({ s2 with isResting := false, isRoundRest := false, isSwitchingSides := false,
                 isFinished := false }, emitIf s Cue.change)

/-- The `restart`. -/
def restart (s : WorkoutState) : WorkoutState :=
  let s1 := resetWorkoutState s
  if s1.selectedWorkout.isNone then s1
  else
    let w := s1.selectedWorkout.getD default
    initializeExercise s1 ((w.phases.getD 0 default).exercises.getD 0 default)

/-- The `toggleSound`. -/
def toggleSound (s : WorkoutState) : WorkoutState :=
  { s with soundEnabled := !s.soundEnabled }

/-- The state right after selecting workout `w` from a fresh session
(initial values of the refs, with the selection made). -/
def initState (w : Workout) : WorkoutState :=
  { selectedWorkout := some w, phaseIndex := 0, exerciseIndex := 0, round := 1,
    timeLeft := 0, isResting := false, isRoundRest := false, isRunning := false,
    isStarted := false, isFinished := false, soundEnabled := true,
    currentSide := none, isSwitchingSides := false, partnerMode := false }

/-- All states reachable from selecting workout `w`, under the full command
surface of the engine (including toggling partner mode mid-session). -/
inductive Reachable (w : Workout) : WorkoutState → Prop where
  | init : Reachable w (initState w)
  | next {s} : Reachable w s → Reachable w (nextStep s).1
  | prev {s} : Reachable w s → Reachable w (prevStep s)
  | tickFire {s} : Reachable w s → Reachable w (tick s).1
  | startCmd {s} : Reachable w s → Reachable w (start s).1
  | startFromPhaseCmd {s} (i : Int) : Reachable w s → Reachable w (startFromPhase s i).1
  | goToPhaseCmd {s} (i : Int) : Reachable w s → Reachable w (goToPhase s i).1
  | toggleRunningCmd {s} : Reachable w s → Reachable w (toggleRunning s)
  | restartCmd {s} : Reachable w s → Reachable w (restart s)
  | goToOverviewCmd {s} : Reachable w s → Reachable w (goToOverview s)
  | setPartnerModeCmd {s} (b : Bool) : Reachable w s → Reachable w (setPartnerMode s b)
  | togglePartnerModeCmd {s} : Reachable w s → Reachable w (togglePartnerMode s)
  | toggleSoundCmd {s} : Reachable w s → Reachable w (toggleSound s)

/-- States reachable when partner mode is chosen once, at selection time, and
never toggled mid-session. -/
inductive ReachableFixed (w : Workout) : WorkoutState → Prop where
  | init (pm : Bool) : ReachableFixed w (setPartnerMode (initState w) pm)
  | next {s} : ReachableFixed w s → ReachableFixed w (nextStep s).1
  | prev {s} : ReachableFixed w s → ReachableFixed w (prevStep s)
  | tickFire {s} : ReachableFixed w s → ReachableFixed w (tick s).1
  | startCmd {s} : ReachableFixed w s → ReachableFixed w (start s).1
  | startFromPhaseCmd {s} (i : Int) :
      ReachableFixed w s → ReachableFixed w (startFromPhase s i).1
  | goToPhaseCmd {s} (i : Int) : ReachableFixed w s → ReachableFixed w (goToPhase s i).1
  | toggleRunningCmd {s} : ReachableFixed w s → ReachableFixed w (toggleRunning s)
  | restartCmd {s} : ReachableFixed w s → ReachableFixed w (restart s)
  | goToOverviewCmd {s} : ReachableFixed w s → ReachableFixed w (goToOverview s)
  | toggleSoundCmd {s} : ReachableFixed w s → ReachableFixed w (toggleSound s)

/-- Number of mode flags simultaneously set. -/
def modeFlagCount (s : WorkoutState) : Nat :=
  (if s.isResting then 1 else 0) + (if s.isRoundRest then 1 else 0) +
    (if s.isSwitchingSides then 1 else 0)

/-- Pairwise exclusivity of the three mode flags. -/
def mutexFlags (s : WorkoutState) : Prop :=
  (s.isResting && s.isRoundRest) = false ∧
  (s.isResting && s.isSwitchingSides) = false ∧
  (s.isRoundRest && s.isSwitchingSides) = false

theorem mutexFlags_iff_count (s : WorkoutState) :
    mutexFlags s ↔ modeFlagCount s ≤ 1 := by
  cases hA : s.isResting <;> cases hB : s.isRoundRest <;>
    cases hC : s.isSwitchingSides <;>
    simp_all [mutexFlags, modeFlagCount]

theorem initializeExercise_shape (s : WorkoutState) (e : Exercise) :
    ∃ side t, initializeExercise s e = { s with currentSide := side, timeLeft := t } ∧
      0 ≤ t := by
  unfold initializeExercise
  split_ifs <;> exact ⟨_, _, rfl, Int.natCast_nonneg _⟩

theorem initializeExerciseWithPartnerMode_shape (s : WorkoutState) (e : Exercise)
    (p : Option Exercise) :
    ∃ side sw t, initializeExerciseWithPartnerMode s e p =
        { s with currentSide := side, isSwitchingSides := sw, timeLeft := t } ∧
      0 ≤ t ∧ (sw = true → s.isSwitchingSides = true) := by
  unfold initializeExerciseWithPartnerMode initializeExercise
  cases p <;> split_ifs <;>
    first
      | exact ⟨_, _, _, rfl, Int.natCast_nonneg _, fun h => h⟩
      | exact ⟨_, _, _, rfl, Int.natCast_nonneg _, fun h => nomatch h⟩

theorem goToNextPhase_shape (s : WorkoutState) :
    (goToNextPhase s).1 = s ∨
    (goToNextPhase s).1 = { s with isFinished := true, isRunning := false } ∨
    ∃ side t, (goToNextPhase s).1 =
        { s with phaseIndex := s.phaseIndex + 1, exerciseIndex := 0, round := 1,
                 currentSide := side, isSwitchingSides := false, timeLeft := t } ∧
      0 ≤ t := by
  simp only [goToNextPhase]
  split_ifs with h1 h2
  · left; rfl
  · right; left; rfl
  · right; right
    obtain ⟨side, t, h, ht⟩ := initializeExercise_shape
      { s with phaseIndex := s.phaseIndex + 1, exerciseIndex := 0, round := 1,
               currentSide := none, isSwitchingSides := false }
      (((s.selectedWorkout.getD default).phases.getD (s.phaseIndex + 1)
          default).exercises.getD 0 default)
    exact ⟨side, t, h, ht⟩

@[simp]
theorem initializeExercise_fields (s : WorkoutState) (e : Exercise) :
    (initializeExercise s e).selectedWorkout = s.selectedWorkout ∧
    (initializeExercise s e).phaseIndex = s.phaseIndex ∧
    (initializeExercise s e).exerciseIndex = s.exerciseIndex ∧
    (initializeExercise s e).round = s.round ∧
    (initializeExercise s e).isResting = s.isResting ∧
    (initializeExercise s e).isRoundRest = s.isRoundRest ∧
    (initializeExercise s e).isRunning = s.isRunning ∧
    (initializeExercise s e).isStarted = s.isStarted ∧
    (initializeExercise s e).isFinished = s.isFinished ∧
    (initializeExercise s e).soundEnabled = s.soundEnabled ∧
    (initializeExercise s e).isSwitchingSides = s.isSwitchingSides ∧
    (initializeExercise s e).partnerMode = s.partnerMode := by
  unfold initializeExercise
  split_ifs <;> simp

theorem initializeExercise_timeLeft_nonneg (s : WorkoutState) (e : Exercise) :
    0 ≤ (initializeExercise s e).timeLeft := by
  unfold initializeExercise
  split_ifs <;> exact Int.natCast_nonneg _

@[simp]
theorem initializeExerciseWithPartnerMode_fields (s : WorkoutState) (e : Exercise)
    (p : Option Exercise) :
    (initializeExerciseWithPartnerMode s e p).selectedWorkout = s.selectedWorkout ∧
    (initializeExerciseWithPartnerMode s e p).phaseIndex = s.phaseIndex ∧
    (initializeExerciseWithPartnerMode s e p).exerciseIndex = s.exerciseIndex ∧
    (initializeExerciseWithPartnerMode s e p).round = s.round ∧
    (initializeExerciseWithPartnerMode s e p).isResting = s.isResting ∧
    (initializeExerciseWithPartnerMode s e p).isRoundRest = s.isRoundRest ∧
    (initializeExerciseWithPartnerMode s e p).isRunning = s.isRunning ∧
    (initializeExerciseWithPartnerMode s e p).isStarted = s.isStarted ∧
    (initializeExerciseWithPartnerMode s e p).isFinished = s.isFinished ∧
    (initializeExerciseWithPartnerMode s e p).soundEnabled = s.soundEnabled ∧
    (initializeExerciseWithPartnerMode s e p).partnerMode = s.partnerMode := by
  unfold initializeExerciseWithPartnerMode initializeExercise
  cases p <;> split_ifs <;> simp

@[simp]
theorem initializeExerciseWithPartnerMode_isSwitchingSides (s : WorkoutState)
    (e : Exercise) (p : Option Exercise) :
    (initializeExerciseWithPartnerMode s e p).isSwitchingSides =
      (s.isSwitchingSides && !(s.partnerMode && p.isSome)) := by
  unfold initializeExerciseWithPartnerMode initializeExercise
  cases p <;> split_ifs <;> simp_all

theorem initializeExerciseWithPartnerMode_timeLeft_nonneg (s : WorkoutState)
    (e : Exercise) (p : Option Exercise) :
    0 ≤ (initializeExerciseWithPartnerMode s e p).timeLeft := by
  unfold initializeExerciseWithPartnerMode initializeExercise
  cases p <;> split_ifs <;> exact Int.natCast_nonneg _

@[simp]
theorem goToNextPhase_fields (s : WorkoutState) :
    (goToNextPhase s).1.selectedWorkout = s.selectedWorkout ∧
    (goToNextPhase s).1.isResting = s.isResting ∧
    (goToNextPhase s).1.isRoundRest = s.isRoundRest ∧
    (goToNextPhase s).1.isStarted = s.isStarted ∧
    (goToNextPhase s).1.soundEnabled = s.soundEnabled ∧
    (goToNextPhase s).1.partnerMode = s.partnerMode := by
  rcases goToNextPhase_shape s with h | h | ⟨side, t, h, -⟩ <;> rw [h] <;> simp

theorem goToNextPhase_isSwitchingSides_mono (s : WorkoutState)
    (h : (goToNextPhase s).1.isSwitchingSides = true) : s.isSwitchingSides = true := by
  rcases goToNextPhase_shape s with hs | hs | ⟨side, t, hs, -⟩ <;> rw [hs] at h <;>
    simp_all

theorem goToNextPhase_timeLeft_nonneg (s : WorkoutState) (h : 0 ≤ s.timeLeft) :
    0 ≤ (goToNextPhase s).1.timeLeft := by
  rcases goToNextPhase_shape s with hs | hs | ⟨side, t, hs, ht⟩ <;> rw [hs] <;>
    simp_all

theorem goToNextPhase_isSwitchingSides_false (s : WorkoutState)
    (h : s.isSwitchingSides = false) :
    (goToNextPhase s).1.isSwitchingSides = false := by
  rcases goToNextPhase_shape s with hs | hs | ⟨side, t, hs, -⟩ <;> rw [hs] <;> simp_all

/-- Invariant maintained along sessions in which partner mode is fixed. -/
def InvF (s : WorkoutState) : Prop :=
  0 ≤ s.timeLeft ∧ mutexFlags s ∧
    (s.isSwitchingSides = true → (s.partnerMode && isWorkoutPhase s) = false)

theorem nextStepExerciseEnd_inv (s0 : WorkoutState) (h1 : 0 ≤ s0.timeLeft)
    (hre : s0.isResting = false) (hrr : s0.isRoundRest = false)
    (hsw : s0.isSwitchingSides = false) :
    0 ≤ (nextStepExerciseEnd s0).1.timeLeft ∧
    mutexFlags (nextStepExerciseEnd s0).1 ∧
    (nextStepExerciseEnd s0).1.isSwitchingSides = false := by
  simp only [nextStepExerciseEnd]
  split_ifs <;>
    refine ⟨?_, ⟨?_, ?_, ?_⟩, ?_⟩ <;>
      first
        | exact Int.natCast_nonneg _
        | exact initializeExercise_timeLeft_nonneg _ _
        | exact goToNextPhase_timeLeft_nonneg _ h1
        | simp_all [mutexFlags, goToNextPhase_isSwitchingSides_false]

theorem nextStepExerciseEnd_InvF (s0 : WorkoutState) (h1 : 0 ≤ s0.timeLeft)
    (hre : s0.isResting = false) (hrr : s0.isRoundRest = false)
    (hsw : s0.isSwitchingSides = false) :
    0 ≤ (nextStepExerciseEnd s0).1.timeLeft ∧
    mutexFlags (nextStepExerciseEnd s0).1 ∧
    ((nextStepExerciseEnd s0).1.isSwitchingSides = true →
      ((nextStepExerciseEnd s0).1.partnerMode &&
        isWorkoutPhase (nextStepExerciseEnd s0).1) = false) := by
  obtain ⟨a, b, c⟩ := nextStepExerciseEnd_inv s0 h1 hre hrr hsw
  exact ⟨a, b, fun hh => absurd hh (by simp [c])⟩

set_option maxHeartbeats 1000000 in
theorem nextStep_preserves_InvF (s : WorkoutState) (h : InvF s) : InvF (nextStep s).1 := by
  obtain ⟨h1, ⟨m1, m2, m3⟩, h3⟩ := h
  simp only [InvF, nextStep]
  split_ifs <;> cases hs : s.isSwitchingSides <;>
    first
      | exact ⟨h1, ⟨m1, m2, m3⟩, h3⟩
      | exact nextStepExerciseEnd_InvF _ h1 (by simp_all) (by simp_all) (by simp_all)
      | (refine ⟨?_, ⟨?_, ?_, ?_⟩, ?_⟩ <;>
          first
            | exact Int.natCast_nonneg _
            | exact initializeExerciseWithPartnerMode_timeLeft_nonneg _ _ _
            | exact initializeExercise_timeLeft_nonneg _ _
            | exact goToNextPhase_timeLeft_nonneg _ h1
            | (intro _;
               exact (by cases hpm : s.partnerMode <;> simp_all :
                 (s.partnerMode && isWorkoutPhase s) = false))
            | simp_all [mutexFlags, goToNextPhase_isSwitchingSides_false])

/-- The `isWorkoutPhase` as a function of the two fields it reads, used to
normalize goals across record updates. -/
def phaseTypeIsWorkout (ow : Option Workout) (i : Nat) : Bool :=
  match ow.bind fun w => w.phases.get? i with
  | some p => p.type == PhaseType.workout
  | none => false

@[simp]
theorem isWorkoutPhase_eq (s : WorkoutState) :
    isWorkoutPhase s = phaseTypeIsWorkout s.selectedWorkout s.phaseIndex := rfl

@[simp]
theorem prevStepWalk_fields (s : WorkoutState) :
    (prevStepWalk s).selectedWorkout = s.selectedWorkout ∧
    (prevStepWalk s).isResting = s.isResting ∧
    (prevStepWalk s).isRoundRest = s.isRoundRest ∧
    (prevStepWalk s).isSwitchingSides = s.isSwitchingSides ∧
    (prevStepWalk s).isRunning = s.isRunning ∧
    (prevStepWalk s).isStarted = s.isStarted ∧
    (prevStepWalk s).isFinished = s.isFinished ∧
    (prevStepWalk s).soundEnabled = s.soundEnabled ∧
    (prevStepWalk s).partnerMode = s.partnerMode := by
  unfold prevStepWalk
  split_ifs <;> simp [apply_ite]

theorem prevStepWalk_timeLeft_nonneg (s : WorkoutState) (h : 0 ≤ s.timeLeft) :
    0 ≤ (prevStepWalk s).timeLeft := by
  unfold prevStepWalk
  split_ifs <;>
    first
      | exact h
      | (rw [apply_ite WorkoutState.timeLeft]
         split_ifs <;> exact Int.natCast_nonneg _)

set_option maxHeartbeats 1000000 in
theorem prevStep_preserves_InvF (s : WorkoutState) (h : InvF s) : InvF (prevStep s) := by
  obtain ⟨h1, ⟨m1, m2, m3⟩, h3⟩ := h
  simp only [InvF, prevStep]
  split_ifs <;> cases hs : s.isSwitchingSides <;>
    first
      | exact ⟨h1, ⟨m1, m2, m3⟩, h3⟩
      | (refine ⟨?_, ⟨?_, ?_, ?_⟩, ?_⟩ <;>
          first
            | exact h1
            | exact Int.natCast_nonneg _
            | exact initializeExercise_timeLeft_nonneg _ _
            | exact prevStepWalk_timeLeft_nonneg _ h1
            | simp_all [mutexFlags])

theorem tick_preserves_InvF (s : WorkoutState) (h : InvF s) : InvF (tick s).1 := by
  by_cases ht : s.timeLeft ≤ 1
  · simpa [tick, ht] using nextStep_preserves_InvF s h
  · obtain ⟨h1, hm, h3⟩ := h
    simp only [tick, ht, if_false]
    split_ifs <;> exact ⟨show (0 : Int) ≤ s.timeLeft - 1 by omega, hm, h3⟩

set_option maxHeartbeats 1000000 in
theorem start_preserves_InvF (s : WorkoutState) (h : InvF s) : InvF (start s).1 := by
  obtain ⟨h1, ⟨m1, m2, m3⟩, h3⟩ := h
  simp only [InvF, start]
  split_ifs <;> cases hs : s.isSwitchingSides <;>
    first
      | exact ⟨h1, ⟨m1, m2, m3⟩, h3⟩
      | (refine ⟨?_, ⟨?_, ?_, ?_⟩, ?_⟩ <;>
          first
            | exact initializeExerciseWithPartnerMode_timeLeft_nonneg _ _ _
            | exact initializeExercise_timeLeft_nonneg _ _
            | simp_all [mutexFlags])

set_option maxHeartbeats 1000000 in
theorem startFromPhase_preserves_InvF (s : WorkoutState) (i : Int) (h : InvF s) :
    InvF (startFromPhase s i).1 := by
  obtain ⟨h1, ⟨m1, m2, m3⟩, h3⟩ := h
  simp only [InvF, startFromPhase]
  split_ifs <;>
    first
      | exact ⟨h1, ⟨m1, m2, m3⟩, h3⟩
      | (refine ⟨?_, ⟨?_, ?_, ?_⟩, ?_⟩ <;>
          first
            | exact initializeExerciseWithPartnerMode_timeLeft_nonneg _ _ _
            | exact initializeExercise_timeLeft_nonneg _ _
            | simp_all [mutexFlags])

set_option maxHeartbeats 1000000 in
theorem goToPhase_preserves_InvF (s : WorkoutState) (i : Int) (h : InvF s) :
    InvF (goToPhase s i).1 := by
  obtain ⟨h1, ⟨m1, m2, m3⟩, h3⟩ := h
  simp only [InvF, goToPhase]
  split_ifs <;>
    first
      | exact ⟨h1, ⟨m1, m2, m3⟩, h3⟩
      | (refine ⟨?_, ⟨?_, ?_, ?_⟩, ?_⟩ <;>
          first
            | exact initializeExerciseWithPartnerMode_timeLeft_nonneg _ _ _
            | exact initializeExercise_timeLeft_nonneg _ _
            | simp_all [mutexFlags])

theorem restart_preserves_InvF (s : WorkoutState) : InvF (restart s) := by
  simp only [InvF, restart, resetWorkoutState]
  split_ifs <;>
    refine ⟨?_, ⟨?_, ?_, ?_⟩, ?_⟩ <;>
      first
        | exact le_refl 0
        | exact initializeExercise_timeLeft_nonneg _ _
        | simp_all [mutexFlags]

theorem toggleRunning_preserves_InvF (s : WorkoutState) (h : InvF s) :
    InvF (toggleRunning s) := h

theorem goToOverview_preserves_InvF (s : WorkoutState) (h : InvF s) :
    InvF (goToOverview s) := h

theorem toggleSound_preserves_InvF (s : WorkoutState) (h : InvF s) :
    InvF (toggleSound s) := h

theorem ReachableFixed_InvF {w : Workout} {s : WorkoutState}
    (h : ReachableFixed w s) : InvF s := by
  induction h with
  | init pm =>
    exact ⟨le_refl 0, ⟨rfl, rfl, rfl⟩, fun hh => nomatch hh⟩
  | next _ ih => exact nextStep_preserves_InvF _ ih
  | prev _ ih => exact prevStep_preserves_InvF _ ih
  | tickFire _ ih => exact tick_preserves_InvF _ ih
  | startCmd _ ih => exact start_preserves_InvF _ ih
  | startFromPhaseCmd i _ ih => exact startFromPhase_preserves_InvF _ i ih
  | goToPhaseCmd i _ ih => exact goToPhase_preserves_InvF _ i ih
  | toggleRunningCmd _ ih => exact toggleRunning_preserves_InvF _ ih
  | restartCmd _ _ => exact restart_preserves_InvF _
  | goToOverviewCmd _ ih => exact goToOverview_preserves_InvF _ ih
  | toggleSoundCmd _ ih => exact toggleSound_preserves_InvF _ ih

theorem nextStepExerciseEnd_timeLeft_nonneg (s0 : WorkoutState)
    (h : 0 ≤ s0.timeLeft) : 0 ≤ (nextStepExerciseEnd s0).1.timeLeft := by
  simp only [nextStepExerciseEnd]
  split_ifs <;>
    first
      | exact Int.natCast_nonneg _
      | exact initializeExercise_timeLeft_nonneg _ _
      | exact goToNextPhase_timeLeft_nonneg _ h

theorem nextStep_timeLeft_nonneg (s : WorkoutState) (h : 0 ≤ s.timeLeft) :
    0 ≤ (nextStep s).1.timeLeft := by
  simp only [nextStep]
  split_ifs <;>
    first
      | exact h
      | exact Int.natCast_nonneg _
      | exact initializeExerciseWithPartnerMode_timeLeft_nonneg _ _ _
      | exact goToNextPhase_timeLeft_nonneg _ h
      | exact nextStepExerciseEnd_timeLeft_nonneg _ h

theorem prevStep_timeLeft_nonneg (s : WorkoutState) (h : 0 ≤ s.timeLeft) :
    0 ≤ (prevStep s).timeLeft := by
  simp only [prevStep]
  split_ifs <;>
    first
      | exact h
      | exact Int.natCast_nonneg _
      | exact initializeExercise_timeLeft_nonneg _ _
      | exact prevStepWalk_timeLeft_nonneg _ h

theorem tick_timeLeft_nonneg (s : WorkoutState) (h : 0 ≤ s.timeLeft) :
    0 ≤ (tick s).1.timeLeft := by
  by_cases ht : s.timeLeft ≤ 1
  · simpa [tick, ht] using nextStep_timeLeft_nonneg s h
  · simp only [tick, ht, if_false]
    split_ifs <;> exact show (0 : Int) ≤ s.timeLeft - 1 by omega

theorem start_timeLeft_nonneg (s : WorkoutState) (h : 0 ≤ s.timeLeft) :
    0 ≤ (start s).1.timeLeft := by
  simp only [start]
  split_ifs <;>
    first
      | exact h
      | exact initializeExerciseWithPartnerMode_timeLeft_nonneg _ _ _
      | exact initializeExercise_timeLeft_nonneg _ _

theorem startFromPhase_timeLeft_nonneg (s : WorkoutState) (i : Int)
    (h : 0 ≤ s.timeLeft) : 0 ≤ (startFromPhase s i).1.timeLeft := by
  simp only [startFromPhase]
  split_ifs <;>
    first
      | exact h
      | exact initializeExerciseWithPartnerMode_timeLeft_nonneg _ _ _
      | exact initializeExercise_timeLeft_nonneg _ _

theorem goToPhase_timeLeft_nonneg (s : WorkoutState) (i : Int)
    (h : 0 ≤ s.timeLeft) : 0 ≤ (goToPhase s i).1.timeLeft := by
  simp only [goToPhase]
  split_ifs <;>
    first
      | exact h
      | exact initializeExerciseWithPartnerMode_timeLeft_nonneg _ _ _
      | exact initializeExercise_timeLeft_nonneg _ _

theorem restart_timeLeft_nonneg (s : WorkoutState) : 0 ≤ (restart s).timeLeft := by
  simp only [restart, resetWorkoutState]
  split_ifs <;>
    first
      | exact le_refl 0
      | exact initializeExercise_timeLeft_nonneg _ _

/-- The `timeLeft` stays non-negative along every session, under the full
command surface, partner-mode toggling included. -/
theorem Reachable_timeLeft_nonneg {w : Workout} {s : WorkoutState}
    (h : Reachable w s) : 0 ≤ s.timeLeft := by
  induction h with
  | init => exact le_refl 0
  | next _ ih => exact nextStep_timeLeft_nonneg _ ih
  | prev _ ih => exact prevStep_timeLeft_nonneg _ ih
  | tickFire _ ih => exact tick_timeLeft_nonneg _ ih
  | startCmd _ ih => exact start_timeLeft_nonneg _ ih
  | startFromPhaseCmd i _ ih => exact startFromPhase_timeLeft_nonneg _ i ih
  | goToPhaseCmd i _ ih => exact goToPhase_timeLeft_nonneg _ i ih
  | toggleRunningCmd _ ih => exact ih
  | restartCmd _ _ => exact restart_timeLeft_nonneg _
  | goToOverviewCmd _ ih => exact ih
  | setPartnerModeCmd b _ ih => exact ih
  | togglePartnerModeCmd _ ih => exact ih
  | toggleSoundCmd _ ih => exact ih

theorem goToNextPhase_eq_terminal (s : WorkoutState)
    (hw : s.selectedWorkout.isNone = false)
    (hp : (s.selectedWorkout.getD default).phases.length ≤ s.phaseIndex + 1) :
    goToNextPhase s =
      ({ s with isFinished := true, isRunning := false }, emitIf s Cue.phaseEnd) := by
  simp only [goToNextPhase]
  split_ifs <;> first | rfl | simp_all

theorem nextStep_eq_switchExit (s : WorkoutState)
    (hw : s.selectedWorkout.isNone = false)
    (hg : (s.isSwitchingSides && !(s.partnerMode && isWorkoutPhase s)) = true) :
    nextStep s =
      ({ s with isSwitchingSides := false, currentSide := some Side.right,
                timeLeft := (((currentExercise s).getD default).perSideDuration : Int) },
       emitIf s Cue.start) := by
  simp only [nextStep]
  split_ifs <;> first | rfl | simp_all

theorem nextStep_eq_roundRestExit (s : WorkoutState)
    (hw : s.selectedWorkout.isNone = false)
    (hg : (s.isSwitchingSides && !(s.partnerMode && isWorkoutPhase s)) = false)
    (hrr : s.isRoundRest = true) :
    nextStep s =
      (initializeExerciseWithPartnerMode { s with isRoundRest := false, exerciseIndex := 0 }
        (((currentPhase s).getD default).exercises.getD 0 default)
        (if s.partnerMode && isWorkoutPhase s then
          ((currentPhase s).getD default).exercises.get? (1 % totalExercises s)
        else none), emitIf s Cue.start) := by
  simp only [nextStep]
  split_ifs <;> first | rfl | simp_all

theorem nextStep_eq_restExit_next (s : WorkoutState)
    (hw : s.selectedWorkout.isNone = false)
    (hg : (s.isSwitchingSides && !(s.partnerMode && isWorkoutPhase s)) = false)
    (hrr : s.isRoundRest = false) (hre : s.isResting = true)
    (hnext : s.exerciseIndex + 1 < totalExercises s) :
    nextStep s =
      ({ initializeExerciseWithPartnerMode { s with exerciseIndex := s.exerciseIndex + 1 }
          (((currentPhase s).getD default).exercises.getD (s.exerciseIndex + 1) default)
          (if s.partnerMode && isWorkoutPhase s then
            ((currentPhase s).getD default).exercises.get?
              ((s.exerciseIndex + 1 + 1) % totalExercises s)
          else none) with isResting := false }, emitIf s Cue.start) := by
  simp only [nextStep]
  split_ifs <;> first | rfl | (simp_all <;> omega)

theorem nextStep_eq_restExit_roundRestEntry (s : WorkoutState)
    (hw : s.selectedWorkout.isNone = false)
    (hg : (s.isSwitchingSides && !(s.partnerMode && isWorkoutPhase s)) = false)
    (hrr : s.isRoundRest = false) (hre : s.isResting = true)
    (hlast : totalExercises s ≤ s.exerciseIndex + 1)
    (hround : s.round < totalRounds s)
    (hrb : ((currentPhase s).getD default).restBetweenRounds ≠ 0) :
    nextStep s =
      ({ s with round := s.round + 1, isRoundRest := true,
                timeLeft := (((currentPhase s).getD default).restBetweenRounds : Int),
                isResting := false }, emitIf s Cue.change) := by
  simp only [nextStep]
  split_ifs <;> first | rfl | simp_all

theorem nextStep_eq_restExit_phase (s : WorkoutState)
    (hw : s.selectedWorkout.isNone = false)
    (hg : (s.isSwitchingSides && !(s.partnerMode && isWorkoutPhase s)) = false)
    (hrr : s.isRoundRest = false) (hre : s.isResting = true)
    (hlast : totalExercises s ≤ s.exerciseIndex + 1)
    (hround : ¬s.round < totalRounds s) :
    nextStep s = ({ (goToNextPhase s).1 with isResting := false }, (goToNextPhase s).2) := by
  simp only [nextStep]
  split_ifs <;> first | rfl | simp_all

theorem nextStep_eq_switchEntry (s : WorkoutState)
    (hw : s.selectedWorkout.isNone = false)
    (hg : (s.isSwitchingSides && !(s.partnerMode && isWorkoutPhase s)) = false)
    (hrr : s.isRoundRest = false) (hre : s.isResting = false)
    (hbl : (!(s.partnerMode && isWorkoutPhase s) &&
      (isBilateralExercise s && (s.currentSide == some Side.left))) = true) :
    nextStep s =
      ({ s with isSwitchingSides := true,
                timeLeft := ((if ((currentExercise s).getD default).switchRestDuration = 0
                              then 5
                              else ((currentExercise s).getD default).switchRestDuration : Nat) : Int) },
       emitIf s Cue.change) := by
  simp only [nextStep]
  split_ifs <;> first | rfl | simp_all

theorem nextStep_eq_exerciseEnd (s : WorkoutState)
    (hw : s.selectedWorkout.isNone = false)
    (hg : (s.isSwitchingSides && !(s.partnerMode && isWorkoutPhase s)) = false)
    (hrr : s.isRoundRest = false) (hre : s.isResting = false)
    (hbl : (!(s.partnerMode && isWorkoutPhase s) &&
      (isBilateralExercise s && (s.currentSide == some Side.left))) = false) :
    nextStep s =
      nextStepExerciseEnd
        (if (!(s.partnerMode && isWorkoutPhase s) &&
             (isBilateralExercise s && (s.currentSide == some Side.right))) = true then
          { s with currentSide := none }
        else s) := by
  simp only [nextStep]
  split_ifs <;> first | rfl | simp_all

theorem nextStepExerciseEnd_eq_restEntry (s0 : WorkoutState)
    (hrest : ((currentExercise s0).getD default).restAfter ≠ 0)
    (hp : ((s0.partnerMode && isWorkoutPhase s0) && (partnerExercise s0).isSome) = false) :
    nextStepExerciseEnd s0 =
      ({ s0 with isResting := true,
                 timeLeft := (((currentExercise s0).getD default).restAfter : Int) },
       emitIf s0 Cue.change) := by
  simp only [nextStepExerciseEnd]
  split_ifs <;> first | rfl | (simp_all <;> omega)

theorem nextStepExerciseEnd_eq_next (s0 : WorkoutState)
    (hpm : s0.partnerMode = false)
    (hrest : ((currentExercise s0).getD default).restAfter = 0)
    (hnext : s0.exerciseIndex + 1 < totalExercises s0) :
    nextStepExerciseEnd s0 =
      (initializeExercise { s0 with exerciseIndex := s0.exerciseIndex + 1 }
        (((currentPhase s0).getD default).exercises.getD (s0.exerciseIndex + 1) default),
       emitIf s0 Cue.change) := by
  simp only [nextStepExerciseEnd]
  split_ifs <;> first | rfl | (simp_all <;> omega)

theorem nextStepExerciseEnd_eq_roundRestEntry (s0 : WorkoutState)
    (hpm : s0.partnerMode = false)
    (hrest : ((currentExercise s0).getD default).restAfter = 0)
    (hlast : totalExercises s0 ≤ s0.exerciseIndex + 1)
    (hround : s0.round < totalRounds s0)
    (hrb : ((currentPhase s0).getD default).restBetweenRounds ≠ 0) :
    nextStepExerciseEnd s0 =
      ({ s0 with round := s0.round + 1, isRoundRest := true,
                 timeLeft := (((currentPhase s0).getD default).restBetweenRounds : Int) },
       emitIf s0 Cue.change) := by
  simp only [nextStepExerciseEnd]
  split_ifs <;> first | rfl | (simp_all <;> omega)

theorem nextStepExerciseEnd_eq_roundWrap (s0 : WorkoutState)
    (hpm : s0.partnerMode = false)
    (hrest : ((currentExercise s0).getD default).restAfter = 0)
    (hlast : totalExercises s0 ≤ s0.exerciseIndex + 1)
    (hround : s0.round < totalRounds s0)
    (hrb : ((currentPhase s0).getD default).restBetweenRounds = 0) :
    nextStepExerciseEnd s0 =
      (initializeExercise { s0 with round := s0.round + 1, exerciseIndex := 0 }
        (((currentPhase s0).getD default).exercises.getD 0 default),
       emitIf s0 Cue.change) := by
  simp only [nextStepExerciseEnd]
  split_ifs <;> first | rfl | (simp_all <;> omega)

theorem nextStepExerciseEnd_eq_phase (s0 : WorkoutState)
    (hpm : s0.partnerMode = false)
    (hrest : ((currentExercise s0).getD default).restAfter = 0)
    (hlast : totalExercises s0 ≤ s0.exerciseIndex + 1)
    (hround : ¬s0.round < totalRounds s0) :
    nextStepExerciseEnd s0 = goToNextPhase s0 := by
  simp only [nextStepExerciseEnd]
  split_ifs <;> first | rfl | (simp_all <;> omega)

theorem prevStep_eq_switch (s : WorkoutState)
    (hw : s.selectedWorkout.isNone = false) (hsw : s.isSwitchingSides = true) :
    prevStep s =
      { s with isSwitchingSides := false, currentSide := some Side.left,
               timeLeft := (((currentExercise s).getD default).perSideDuration : Int) } := by
  simp only [prevStep]
  split_ifs <;> first | rfl | (simp_all <;> omega)

theorem prevStep_eq_right (s : WorkoutState)
    (hw : s.selectedWorkout.isNone = false) (hsw : s.isSwitchingSides = false)
    (hbr : (isBilateralExercise s && (s.currentSide == some Side.right)) = true) :
    prevStep s =
      { s with currentSide := some Side.left,
               timeLeft := (((currentExercise s).getD default).perSideDuration : Int) } := by
  simp only [prevStep]
  split_ifs <;> first | rfl | (simp_all <;> omega)

theorem prevStep_eq_restingBilateral (s : WorkoutState)
    (hw : s.selectedWorkout.isNone = false) (hsw : s.isSwitchingSides = false)
    (hbr : (isBilateralExercise s && (s.currentSide == some Side.right)) = false)
    (hrr : s.isRoundRest = false) (hre : s.isResting = true)
    (hbil : isBilateralExercise s = true) :
    prevStep s =
      { s with isResting := false, currentSide := some Side.right,
               timeLeft := (((currentExercise s).getD default).perSideDuration : Int) } := by
  simp only [prevStep]
  split_ifs <;> first | rfl | (simp_all <;> omega)

theorem prevStep_eq_restingPlain (s : WorkoutState)
    (hw : s.selectedWorkout.isNone = false) (hsw : s.isSwitchingSides = false)
    (hbr : (isBilateralExercise s && (s.currentSide == some Side.right)) = false)
    (hrr : s.isRoundRest = false) (hre : s.isResting = true)
    (hbil : isBilateralExercise s = false) :
    prevStep s =
      { s with isResting := false,
               timeLeft := (((currentExercise s).getD default).duration : Int) } := by
  simp only [prevStep]
  split_ifs <;> first | rfl | (simp_all <;> omega)

theorem prevStep_eq_walk (s : WorkoutState)
    (hw : s.selectedWorkout.isNone = false) (hsw : s.isSwitchingSides = false)
    (hbr : (isBilateralExercise s && (s.currentSide == some Side.right)) = false)
    (hrr : s.isRoundRest = false) (hre : s.isResting = false) :
    prevStep s = prevStepWalk s := by
  simp only [prevStep]
  split_ifs <;> first | rfl | (simp_all <;> omega)

theorem prevStepWalk_eq_prevEx (s : WorkoutState) (hex : 0 < s.exerciseIndex) :
    prevStepWalk s =
      (if (((currentPhase s).getD default).exercises.getD (s.exerciseIndex - 1)
            default).bilateral = true then
        { s with exerciseIndex := s.exerciseIndex - 1, currentSide := some Side.right,
                 timeLeft := ((((currentPhase s).getD default).exercises.getD
                   (s.exerciseIndex - 1) default).perSideDuration : Int) }
      else
        { s with exerciseIndex := s.exerciseIndex - 1, currentSide := none,
                 timeLeft := ((((currentPhase s).getD default).exercises.getD
                   (s.exerciseIndex - 1) default).duration : Int) }) := by
  simp only [prevStepWalk]
  split_ifs <;> first | rfl | (simp_all <;> omega)

theorem prevStepWalk_eq_roundBack (s : WorkoutState) (hex : s.exerciseIndex = 0)
    (hr : 1 < s.round) :
    prevStepWalk s =
      (if (((currentPhase s).getD default).exercises.getD (totalExercises s - 1)
            default).bilateral = true then
        { s with round := s.round - 1, exerciseIndex := totalExercises s - 1,
                 currentSide := some Side.right,
                 timeLeft := ((((currentPhase s).getD default).exercises.getD
                   (totalExercises s - 1) default).perSideDuration : Int) }
      else
        { s with round := s.round - 1, exerciseIndex := totalExercises s - 1,
                 currentSide := none,
                 timeLeft := ((((currentPhase s).getD default).exercises.getD
                   (totalExercises s - 1) default).duration : Int) }) := by
  simp only [prevStepWalk]
  split_ifs <;> first | rfl | (simp_all <;> omega)

/-! Concrete workouts used to evaluate the engine on the spec's scenarios. -/

/-- The exercise of the spec's round scenario: `{duration:40, restAfter:15}`. -/
def scenarioExercise : Exercise :=
  { duration := 40, restAfter := 15, bilateral := false, perSideDuration := 0,
    switchRestDuration := 0 }

/-- The spec's round scenario phase: `{rounds:2, restBetweenRounds:60}`. -/
def scenarioPhase : Phase :=
  { type := PhaseType.workout, rounds := 2, restBetweenRounds := 60,
    exercises := [scenarioExercise] }

def cooldownExercise : Exercise :=
  { duration := 30, restAfter := 0, bilateral := false, perSideDuration := 0,
    switchRestDuration := 0 }

def cooldownPhase : Phase :=
  { type := PhaseType.cooldown, rounds := 1, restBetweenRounds := 0,
    exercises := [cooldownExercise] }

def scenarioWorkout : Workout := { phases := [scenarioPhase, cooldownPhase] }

/-- The state after `start` and `n` subsequent `nextStep` calls on the
scenario workout. -/
def scenarioState (n : Nat) : WorkoutState :=
  (fun s => (nextStep s).1)^[n] (start (initState scenarioWorkout)).1

/-- A bilateral exercise with a trailing rest. -/
def bilateralRestExercise : Exercise :=
  { duration := 0, restAfter := 15, bilateral := true, perSideDuration := 10,
    switchRestDuration := 5 }

/-- One workout-type phase holding a single bilateral exercise. -/
def bilateralWorkout : Workout :=
  { phases := [{ type := PhaseType.workout, rounds := 1, restBetweenRounds := 0,
                 exercises := [bilateralRestExercise] }] }

/-- Reached by: select, start, advance to the switch segment, enable partner
mode mid-switch, advance again. -/
def partnerToggleState : WorkoutState :=
  (nextStep (setPartnerMode (nextStep (start (initState bilateralWorkout)).1).1 true)).1

/-- A single-phase workout whose last exercise carries a trailing rest. -/
def trailingRestWorkout : Workout :=
  { phases := [{ type := PhaseType.workout, rounds := 1, restBetweenRounds := 0,
                 exercises := [scenarioExercise] }] }

/-- The finished state of `trailingRestWorkout`: start, run the exercise,
run its rest, which ends the only phase. -/
def finishedTrailingRestState : WorkoutState :=
  (nextStep (nextStep (start (initState trailingRestWorkout)).1).1).1

/-- C4: for a phase with rounds=2, restBetweenRounds=60 and the single
exercise {duration:40, restAfter:15}, repeated advance calls produce exactly
the segment sequence: exercise 40s → rest 15s → round-rest 60s →
exercise 40s (round 2) → rest 15s → phase transition, with no round-rest
after the final round. -/
theorem scenario_segment_sequence :
    ((scenarioState 0).timeLeft = 40 ∧ (scenarioState 0).isResting = false ∧
      (scenarioState 0).isRoundRest = false ∧ (scenarioState 0).isSwitchingSides = false ∧
      (scenarioState 0).round = 1 ∧ (scenarioState 0).exerciseIndex = 0 ∧
      (scenarioState 0).phaseIndex = 0) ∧
    ((scenarioState 1).isResting = true ∧ (scenarioState 1).timeLeft = 15 ∧
      (scenarioState 1).round = 1) ∧
    ((scenarioState 2).isRoundRest = true ∧ (scenarioState 2).timeLeft = 60 ∧
      (scenarioState 2).isResting = false ∧ (scenarioState 2).round = 2) ∧
    ((scenarioState 3).timeLeft = 40 ∧ (scenarioState 3).isResting = false ∧
      (scenarioState 3).isRoundRest = false ∧ (scenarioState 3).round = 2 ∧
      (scenarioState 3).exerciseIndex = 0 ∧ (scenarioState 3).phaseIndex = 0) ∧
    ((scenarioState 4).isResting = true ∧ (scenarioState 4).timeLeft = 15 ∧
      (scenarioState 4).round = 2) ∧
    ((scenarioState 5).phaseIndex = 1 ∧ (scenarioState 5).round = 1 ∧
      (scenarioState 5).isRoundRest = false ∧ (scenarioState 5).isResting = false ∧
      (nextStep (scenarioState 4)).2 = some Cue.phaseEnd) := by
  decide

/-- C1 (counterexample): enabling partner mode while a switching-sides
segment is in flight in a workout-type phase and then advancing yields a
reachable state in which `isResting` and `isSwitchingSides` are both true,
so flag exclusivity fails over the full command surface. -/
theorem reachable_state_with_two_mode_flags :
    Reachable bilateralWorkout partnerToggleState ∧
    modeFlagCount partnerToggleState = 2 ∧
    partnerToggleState.isResting = true ∧
    partnerToggleState.isSwitchingSides = true := by
  refine ⟨?_, by decide, by decide, by decide⟩
  exact Reachable.next (Reachable.setPartnerModeCmd true
    (Reachable.next (Reachable.startCmd Reachable.init)))

/-- C1 (amended): along every reachable state `timeLeft` stays
non-negative; and when partner mode is fixed at selection time and never
toggled mid-session, at most one of the mode flags {isResting, isRoundRest,
isSwitchingSides} is ever true. -/
theorem timeLeft_nonneg_and_flags_exclusive :
    (∀ (w : Workout) (s : WorkoutState), Reachable w s → 0 ≤ s.timeLeft) ∧
    (∀ (w : Workout) (s : WorkoutState), ReachableFixed w s →
      0 ≤ s.timeLeft ∧ modeFlagCount s ≤ 1) := by
  refine ⟨fun w s h => Reachable_timeLeft_nonneg h, fun w s h => ?_⟩
  obtain ⟨h1, hm, -⟩ := ReachableFixed_InvF h
  exact ⟨h1, (mutexFlags_iff_count s).mp hm⟩

theorem timeLeft_nonneg_and_flags_exclusive_witness :
    0 ≤ ((nextStep (start (initState scenarioWorkout)).1).1).timeLeft ∧
    0 ≤ ((nextStep (setPartnerMode (initState scenarioWorkout) true)).1).timeLeft ∧
    modeFlagCount ((nextStep (setPartnerMode (initState scenarioWorkout) true)).1) ≤ 1 := by
  refine ⟨timeLeft_nonneg_and_flags_exclusive.1 scenarioWorkout _
    (Reachable.next (Reachable.startCmd Reachable.init)), ?_, ?_⟩
  · exact (timeLeft_nonneg_and_flags_exclusive.2 scenarioWorkout _
      (ReachableFixed.next (ReachableFixed.init true))).1
  · exact (timeLeft_nonneg_and_flags_exclusive.2 scenarioWorkout _
      (ReachableFixed.next (ReachableFixed.init true))).2

/-- C10: `prevStep` never modifies the lifecycle flags `isFinished`,
`isRunning`, `isStarted`; in particular, from the finished state of the
scenario workout, `prevStep` still walks the position indices backward
(phase 1 back to phase 0, round set to 2) while `isFinished` stays true. -/
theorem prevStep_preserves_lifecycle_flags :
    (∀ s : WorkoutState, (prevStep s).isFinished = s.isFinished ∧
      (prevStep s).isRunning = s.isRunning ∧ (prevStep s).isStarted = s.isStarted) ∧
    ((scenarioState 6).isFinished = true ∧ (scenarioState 6).phaseIndex = 1 ∧
      (prevStep (scenarioState 6)).phaseIndex = 0 ∧
      (prevStep (scenarioState 6)).round = 2 ∧
      (prevStep (scenarioState 6)).isFinished = true) := by
  constructor
  · intro s
    simp only [prevStep]
    split_ifs <;> simp
  · decide

/-- A state with no workout selected (the initial ref values). -/
def noSelectionState : WorkoutState :=
  { selectedWorkout := none, phaseIndex := 0, exerciseIndex := 0, round := 1,
    timeLeft := 0, isResting := false, isRoundRest := false, isRunning := false,
    isStarted := false, isFinished := false, soundEnabled := true,
    currentSide := none, isSwitchingSides := false, partnerMode := false }

/-- C8 (counterexample): `toggleRunning` has no selection guard: with no
workout selected it still flips `isRunning`, so it is not a no-op. -/
theorem toggleRunning_not_noop_without_selection :
    noSelectionState.selectedWorkout = none ∧
    toggleRunning noSelectionState ≠ noSelectionState ∧
    (toggleRunning noSelectionState).isRunning = true := by decide

/-- C8 (amended): `nextStep`, `prevStep`, `start`, `startFromPhase`,
`goToPhase` and `goToNextPhase` are no-ops when no workout is selected, and
`startFromPhase`/`goToPhase` are also no-ops when the target phase index is
out of range; `toggleRunning`, however, flips `isRunning` unconditionally. -/
theorem commands_noop_without_selection (s : WorkoutState) (i : Int)
    (h : s.selectedWorkout = none) :
    nextStep s = (s, none) ∧ prevStep s = s ∧ start s = (s, none) ∧
    startFromPhase s i = (s, none) ∧ goToPhase s i = (s, none) ∧
    goToNextPhase s = (s, none) ∧
    (∀ (s' : WorkoutState) (w : Workout) (j : Int), s'.selectedWorkout = some w →
      (j < 0 ∨ (w.phases.length : Int) ≤ j) →
      startFromPhase s' j = (s', none) ∧ goToPhase s' j = (s', none)) ∧
    (toggleRunning s).isRunning = !s.isRunning := by
  refine ⟨by simp [nextStep, h], by simp [prevStep, h], by simp [start, h],
    by simp [startFromPhase, h], by simp [goToPhase, h], by simp [goToNextPhase, h],
    ?_, rfl⟩
  intro s' w j hw hj
  constructor
  · simp only [startFromPhase]
    split_ifs <;> first | rfl | (simp_all <;> omega)
  · simp only [goToPhase]
    split_ifs <;> first | rfl | (simp_all <;> omega)

theorem commands_noop_without_selection_witness :
    nextStep noSelectionState = (noSelectionState, none) ∧
    startFromPhase { initState scenarioWorkout with timeLeft := 7 } 5 =
      ({ initState scenarioWorkout with timeLeft := 7 }, none) := by
  refine ⟨(commands_noop_without_selection noSelectionState 0 rfl).1, ?_⟩
  exact ((commands_noop_without_selection noSelectionState 0 rfl).2.2.2.2.2.2.1
    { initState scenarioWorkout with timeLeft := 7 } scenarioWorkout 5 rfl
    (by decide)).1

theorem eq_self_of_finished (s : WorkoutState) (hf : s.isFinished = true)
    (hr : s.isRunning = false) :
    { s with isFinished := true, isRunning := false } = s := by
  cases s
  simp_all

/-- C3 (counterexample): the finished state of a workout whose last exercise
has `restAfter > 0`: a further advance is not a no-op — it re-enters the
trailing rest (isResting becomes true, timeLeft 15) with isFinished still
true. -/
theorem advance_after_finish_not_noop :
    finishedTrailingRestState.isFinished = true ∧
    finishedTrailingRestState.isRunning = false ∧
    (nextStep finishedTrailingRestState).1 ≠ finishedTrailingRestState ∧
    (nextStep finishedTrailingRestState).1.isResting = true ∧
    (nextStep finishedTrailingRestState).1.timeLeft = 15 ∧
    (nextStep finishedTrailingRestState).1.isFinished = true := by decide

/-- C3 (amended): the advance at the last exercise of the last round of the
last phase (after its trailing rest) sets isFinished and clears isRunning;
a further advance from the finished state is a state no-op exactly in the
no-trailing-rest case (the finished state's exercise has restAfter = 0) —
with a trailing rest it re-enters the rest instead. -/
theorem finish_at_end_and_noop_without_trailing_rest :
    (∀ (s : WorkoutState) (w : Workout), s.selectedWorkout = some w →
      s.isSwitchingSides = false → s.isRoundRest = false → s.isResting = true →
      totalExercises s ≤ s.exerciseIndex + 1 → ¬s.round < totalRounds s →
      w.phases.length ≤ s.phaseIndex + 1 →
      (nextStep s).1.isFinished = true ∧ (nextStep s).1.isRunning = false) ∧
    (∀ (s : WorkoutState) (w : Workout) (e : Exercise), s.selectedWorkout = some w →
      s.isFinished = true → s.isRunning = false → s.isSwitchingSides = false →
      s.isRoundRest = false → s.isResting = false → s.partnerMode = false →
      s.currentSide = none → currentExercise s = some e → e.restAfter = 0 →
      totalExercises s ≤ s.exerciseIndex + 1 → ¬s.round < totalRounds s →
      w.phases.length ≤ s.phaseIndex + 1 →
      (nextStep s).1 = s) := by
  constructor
  · intro s w hw hsw hrr hre hlast hround hphase
    have hwn : s.selectedWorkout.isNone = false := by simp [hw]
    have hg : (s.isSwitchingSides && !(s.partnerMode && isWorkoutPhase s)) = false := by
      simp [hsw]
    rw [nextStep_eq_restExit_phase s hwn hg hrr hre hlast hround,
        goToNextPhase_eq_terminal s hwn (by simpa [hw] using hphase)]
    exact ⟨rfl, rfl⟩
  · intro s w e hw hf hr hsw hrr hre hpm hside he hrest hlast hround hphase
    have hwn : s.selectedWorkout.isNone = false := by simp [hw]
    have hg : (s.isSwitchingSides && !(s.partnerMode && isWorkoutPhase s)) = false := by
      simp [hsw]
    have hbl : (!(s.partnerMode && isWorkoutPhase s) &&
        (isBilateralExercise s && (s.currentSide == some Side.left))) = false := by
      simp [hside]
    rw [nextStep_eq_exerciseEnd s hwn hg hrr hre hbl, if_neg (by simp [hside]),
        nextStepExerciseEnd_eq_phase s hpm (by simp [he, hrest]) hlast hround,
        goToNextPhase_eq_terminal s hwn (by simpa [hw] using hphase)]
    exact eq_self_of_finished s hf hr

def noRestWorkout : Workout :=
  { phases := [cooldownPhase] }

theorem finish_at_end_and_noop_without_trailing_rest_witness :
    ((nextStep (nextStep (start (initState trailingRestWorkout)).1).1).1.isFinished
        = true ∧
      (nextStep (nextStep (start (initState trailingRestWorkout)).1).1).1.isRunning
        = false) ∧
    (nextStep (nextStep (start (initState noRestWorkout)).1).1).1 =
      (nextStep (start (initState noRestWorkout)).1).1 := by
  constructor
  · exact finish_at_end_and_noop_without_trailing_rest.1
      (nextStep (start (initState trailingRestWorkout)).1).1 trailingRestWorkout
      (by decide) (by decide) (by decide) (by decide) (by decide) (by decide)
      (by decide)
  · exact finish_at_end_and_noop_without_trailing_rest.2
      (nextStep (start (initState noRestWorkout)).1).1 noRestWorkout cooldownExercise
      (by decide) (by decide) (by decide) (by decide) (by decide) (by decide)
      (by decide) (by decide) (by decide) (by decide) (by decide) (by decide)
      (by decide)

/-- C9: on every tick, when `timeLeft ≤ 1` (so a decrement would hit 0) the
scheduler calls `nextStep` and performs no decrement; otherwise it
decrements by one and emits a countdown cue exactly when the pre-decrement
`timeLeft` is in 2..4 and sound is on, with cue value `timeLeft - 1` in
1..3; `timeLeft` is never driven negative. -/
theorem tick_advances_before_decrement (s : WorkoutState) :
    (s.timeLeft ≤ 1 → tick s = nextStep s) ∧
    (2 ≤ s.timeLeft →
      (tick s).1 = { s with timeLeft := s.timeLeft - 1 } ∧
      ((tick s).2 = some (Cue.countdown (s.timeLeft - 1)) ↔
        s.timeLeft ≤ 4 ∧ s.soundEnabled = true) ∧
      (∀ n : Int, (tick s).2 = some (Cue.countdown n) →
        1 ≤ n ∧ n ≤ 3 ∧ n = s.timeLeft - 1)) ∧
    (0 ≤ s.timeLeft → 0 ≤ (tick s).1.timeLeft) := by
  refine ⟨fun h => by simp [tick, h], fun h => ?_, fun h => tick_timeLeft_nonneg s h⟩
  have hn : ¬s.timeLeft ≤ 1 := by omega
  refine ⟨?_, ?_, ?_⟩
  · simp only [tick, hn, if_false]
    split_ifs <;> rfl
  · simp only [tick, hn, if_false]
    split_ifs with hc
    · exact iff_of_true rfl ⟨hc.1, hc.2.2⟩
    · simp only [false_iff]
      intro hx
      exact hc ⟨hx.1, by omega, hx.2⟩
  · simp only [tick, hn, if_false]
    split_ifs with hc
    · intro n hx
      have : s.timeLeft - 1 = n := by
        simpa using hx
      omega
    · intro n hx
      simp at hx

theorem tick_advances_before_decrement_witness :
    tick { initState scenarioWorkout with timeLeft := 1 } =
      nextStep { initState scenarioWorkout with timeLeft := 1 } ∧
    (tick { initState scenarioWorkout with timeLeft := 3 }).1 =
      { initState scenarioWorkout with timeLeft := 2 } ∧
    0 ≤ (tick { initState scenarioWorkout with timeLeft := 0 }).1.timeLeft := by
  refine ⟨(tick_advances_before_decrement _).1 (by decide), ?_, ?_⟩
  · rw [((tick_advances_before_decrement
      { initState scenarioWorkout with timeLeft := 3 }).2.1 (by decide)).1]
    decide
  · exact (tick_advances_before_decrement _).2.2 (by decide)

/-- The state at the left side of the bilateral exercise, right where the
switch sub-segment is about to be entered. -/
def switchEntryState : WorkoutState := (start (initState bilateralWorkout)).1

/-- C7 (counterexample): the cue emitted when entering the switching-sides
sub-segment equals the cue emitted on an exercise-to-rest transition (both
are the change cue, `playChange`), so no distinct side-switch cue exists. -/
theorem switch_entry_cue_equals_rest_cue :
    (nextStep switchEntryState).1.isSwitchingSides = true ∧
    (nextStep (scenarioState 0)).1.isResting = true ∧
    (nextStep switchEntryState).2 = (nextStep (scenarioState 0)).2 ∧
    (nextStep switchEntryState).2 = some Cue.change := by decide

/-- C7 (amended): entering the switching-sides sub-segment sets the
first-class `isSwitchingSides` state (so it renders distinctly), but emits
the same change cue (`playChange`) used for exercise-to-rest transitions;
the cue that differs is the start cue played when the switch ends and the
right side begins. -/
theorem switch_entry_sets_state_but_reuses_change_cue :
    (∀ s : WorkoutState, s.selectedWorkout.isNone = false →
      (s.isSwitchingSides && !(s.partnerMode && isWorkoutPhase s)) = false →
      s.isRoundRest = false → s.isResting = false →
      (!(s.partnerMode && isWorkoutPhase s) &&
        (isBilateralExercise s && (s.currentSide == some Side.left))) = true →
      (nextStep s).1.isSwitchingSides = true ∧ (nextStep s).2 = emitIf s Cue.change) ∧
    (∀ s : WorkoutState, s.selectedWorkout.isNone = false →
      (s.isSwitchingSides && !(s.partnerMode && isWorkoutPhase s)) = false →
      s.isRoundRest = false → s.isResting = false → s.partnerMode = false →
      s.currentSide = none → ((currentExercise s).getD default).restAfter ≠ 0 →
      (nextStep s).1.isResting = true ∧ (nextStep s).2 = emitIf s Cue.change) ∧
    (∀ s : WorkoutState, s.selectedWorkout.isNone = false →
      (s.isSwitchingSides && !(s.partnerMode && isWorkoutPhase s)) = true →
      (nextStep s).1.currentSide = some Side.right ∧
      (nextStep s).2 = emitIf s Cue.start) := by
  refine ⟨?_, ?_, ?_⟩
  · intro s hw hg hrr hre hbl
    rw [nextStep_eq_switchEntry s hw hg hrr hre hbl]
    exact ⟨rfl, rfl⟩
  · intro s hw hg hrr hre hpm hside hrest
    rw [nextStep_eq_exerciseEnd s hw hg hrr hre (by simp [hside]),
        if_neg (by simp [hside]),
        nextStepExerciseEnd_eq_restEntry s hrest (by simp [hpm])]
    exact ⟨rfl, rfl⟩
  · intro s hw hg
    rw [nextStep_eq_switchExit s hw hg]
    exact ⟨rfl, rfl⟩

theorem switch_entry_sets_state_but_reuses_change_cue_witness :
    ((nextStep switchEntryState).1.isSwitchingSides = true ∧
      (nextStep switchEntryState).2 = emitIf switchEntryState Cue.change) ∧
    ((nextStep (scenarioState 0)).1.isResting = true ∧
      (nextStep (scenarioState 0)).2 = emitIf (scenarioState 0) Cue.change) ∧
    ((nextStep (nextStep switchEntryState).1).1.currentSide = some Side.right ∧
      (nextStep (nextStep switchEntryState).1).2 =
        emitIf (nextStep switchEntryState).1 Cue.start) := by
  refine ⟨?_, ?_, ?_⟩
  · exact switch_entry_sets_state_but_reuses_change_cue.1 switchEntryState
      (by decide) (by decide) (by decide) (by decide) (by decide)
  · exact switch_entry_sets_state_but_reuses_change_cue.2.1 (scenarioState 0)
      (by decide) (by decide) (by decide) (by decide) (by decide) (by decide)
      (by decide)
  · exact switch_entry_sets_state_but_reuses_change_cue.2.2
      (nextStep switchEntryState).1 (by decide) (by decide)

def bilateral30Exercise : Exercise :=
  { duration := 0, restAfter := 0, bilateral := true, perSideDuration := 30,
    switchRestDuration := 5 }

def bilateral30Workout : Workout :=
  { phases := [{ type := PhaseType.warmup, rounds := 1, restBetweenRounds := 0,
                 exercises := [bilateral30Exercise, cooldownExercise] }] }

/-- The bilateral demo chain: left side, switch rest, right side. -/
def bilateralState (n : Nat) : WorkoutState :=
  (fun s => (nextStep s).1)^[n] (start (initState bilateral30Workout)).1

/-- C5: for well-formed exercises, `getEffectiveDuration` is
`perSideDuration*2 + (switchRestDuration or 5)` when bilateral and
`duration` otherwise; in non-partner mode a bilateral exercise at the left
side enters the switch sub-segment with the switch-rest duration and then
the right side with `perSideDuration`; for
`{bilateral, perSideDuration:30, switchRestDuration:5}` the sequence is
left 30s → switch 5s → right 30s and the effective duration is 65. -/
theorem bilateral_effective_duration_and_sequence :
    (∀ e : Exercise, (e.bilateral = true → e.perSideDuration ≠ 0) →
      getEffectiveDuration e =
        if e.bilateral = true then
          e.perSideDuration * 2 +
            (if e.switchRestDuration = 0 then 5 else e.switchRestDuration)
        else e.duration) ∧
    (∀ s : WorkoutState, s.selectedWorkout.isNone = false →
      (s.isSwitchingSides && !(s.partnerMode && isWorkoutPhase s)) = false →
      s.isRoundRest = false → s.isResting = false →
      (!(s.partnerMode && isWorkoutPhase s) &&
        (isBilateralExercise s && (s.currentSide == some Side.left))) = true →
      (nextStep s).1.isSwitchingSides = true ∧
      (nextStep s).1.timeLeft =
        ((if ((currentExercise s).getD default).switchRestDuration = 0 then 5
          else ((currentExercise s).getD default).switchRestDuration : Nat) : Int) ∧
      (nextStep (nextStep s).1).1.currentSide = some Side.right ∧
      (nextStep (nextStep s).1).1.isSwitchingSides = false ∧
      (nextStep (nextStep s).1).1.timeLeft =
        (((currentExercise s).getD default).perSideDuration : Int)) ∧
    ((bilateralState 0).currentSide = some Side.left ∧
      (bilateralState 0).timeLeft = 30 ∧
      (bilateralState 1).isSwitchingSides = true ∧ (bilateralState 1).timeLeft = 5 ∧
      (bilateralState 2).currentSide = some Side.right ∧
      (bilateralState 2).timeLeft = 30 ∧
      getEffectiveDuration bilateral30Exercise = 65) := by
  refine ⟨?_, ?_, by decide⟩
  · intro e he
    cases hb : e.bilateral
    · simp [getEffectiveDuration, hb]
    · simp [getEffectiveDuration, hb, he hb]
  · intro s hw hg hrr hre hbl
    have h1 := nextStep_eq_switchEntry s hw hg hrr hre hbl
    have hpw : (s.partnerMode && isWorkoutPhase s) = false := by
      cases hA : (s.partnerMode && isWorkoutPhase s)
      · rfl
      · rw [isWorkoutPhase_eq] at hA hbl
        rw [hA] at hbl
        simp at hbl
    have h2 := nextStep_eq_switchExit (nextStep s).1
      (by rw [h1]; exact hw)
      (by rw [h1]; simp_all [isWorkoutPhase_eq])
    refine ⟨by rw [h1], by rw [h1], by rw [h2, h1], by rw [h2], ?_⟩
    rw [h2, h1]
    simp [currentExercise, currentPhase]

theorem bilateral_effective_duration_and_sequence_witness :
    getEffectiveDuration bilateral30Exercise =
      (if bilateral30Exercise.bilateral = true then
        bilateral30Exercise.perSideDuration * 2 +
          (if bilateral30Exercise.switchRestDuration = 0 then 5
           else bilateral30Exercise.switchRestDuration)
      else bilateral30Exercise.duration) ∧
    (nextStep (bilateralState 0)).1.isSwitchingSides = true ∧
    (nextStep (nextStep (bilateralState 0)).1).1.currentSide = some Side.right := by
  refine ⟨bilateral_effective_duration_and_sequence.1 bilateral30Exercise
    (by decide), ?_, ?_⟩
  · exact (bilateral_effective_duration_and_sequence.2.1 (bilateralState 0)
      (by decide) (by decide) (by decide) (by decide) (by decide)).1
  · exact (bilateral_effective_duration_and_sequence.2.1 (bilateralState 0)
      (by decide) (by decide) (by decide) (by decide) (by decide)).2.2.1

def partnerExerciseA : Exercise :=
  { duration := 30, restAfter := 0, bilateral := false, perSideDuration := 0,
    switchRestDuration := 0 }

def partnerExerciseB : Exercise :=
  { duration := 45, restAfter := 0, bilateral := false, perSideDuration := 0,
    switchRestDuration := 0 }

def partnerDurationWorkout : Workout :=
  { phases := [{ type := PhaseType.workout, rounds := 1, restBetweenRounds := 0,
                 exercises := [partnerExerciseA, partnerExerciseB] }] }

/-- Partner mode enabled at selection, then started: the shared countdown. -/
def partnerSharedState : WorkoutState :=
  (start (setPartnerMode (initState partnerDurationWorkout) true)).1

/-- C6: in partner mode, initializing an exercise against a partner exercise
sets `timeLeft` to the max of the two effective durations with side tracking
suspended (`currentSide = none`, `isSwitchingSides = false`); a participant
is flagged finished-early exactly when the elapsed time of the shared
countdown has reached that participant's own effective duration; for
durations 30 and 45 the shared countdown starts at 45 and Person A is
flagged once elapsed reaches 30. -/
theorem partner_shared_duration_and_finished_early :
    (∀ (s : WorkoutState) (e p : Exercise), s.partnerMode = true →
      (initializeExerciseWithPartnerMode s e (some p)).timeLeft =
        ((max (getEffectiveDuration e) (getEffectiveDuration p) : Nat) : Int) ∧
      (initializeExerciseWithPartnerMode s e (some p)).currentSide = none ∧
      (initializeExerciseWithPartnerMode s e (some p)).isSwitchingSides = false) ∧
    (∀ (s : WorkoutState) (a : Exercise), s.partnerMode = true →
      isWorkoutPhase s = true → s.isResting = false → s.isRoundRest = false →
      currentExercise s = some a → (partnerExercise s).isSome = true →
      (personAFinishedEarly s = true ↔
        (getEffectiveDuration a : Int) ≤ partnerModeElapsed s)) ∧
    (partnerSharedState.timeLeft = 45 ∧ partnerSharedState.currentSide = none ∧
      partnerSharedState.isSwitchingSides = false ∧
      partnerModeElapsed { partnerSharedState with timeLeft := 15 } = 30 ∧
      personAFinishedEarly { partnerSharedState with timeLeft := 15 } = true ∧
      personAFinishedEarly { partnerSharedState with timeLeft := 16 } = false) := by
  refine ⟨?_, ?_, by decide⟩
  · intro s e p hpm
    simp [initializeExerciseWithPartnerMode, hpm]
  · intro s a hpm hwp hre hrr ha hpsome
    cases hpe : partnerExercise s with
    | none => rw [hpe] at hpsome; simp at hpsome
    | some b =>
      simp only [personAFinishedEarly, ha, hpe, hpm, hwp, hre, hrr]
      simp

theorem partner_shared_duration_and_finished_early_witness :
    (initializeExerciseWithPartnerMode
        (setPartnerMode (initState partnerDurationWorkout) true) partnerExerciseA
        (some partnerExerciseB)).timeLeft = 45 ∧
    (personAFinishedEarly { partnerSharedState with timeLeft := 15 } = true ↔
      (getEffectiveDuration partnerExerciseA : Int) ≤
        partnerModeElapsed { partnerSharedState with timeLeft := 15 }) := by
  constructor
  · rw [(partner_shared_duration_and_finished_early.1
      (setPartnerMode (initState partnerDurationWorkout) true) partnerExerciseA
      partnerExerciseB rfl).1]
    decide
  · exact partner_shared_duration_and_finished_early.2.1
      { partnerSharedState with timeLeft := 15 } partnerExerciseA (by decide)
      (by decide) (by decide) (by decide) (by decide) (by decide)

theorem initializeExercise_currentSide_ne_right (s : WorkoutState) (e : Exercise) :
    (initializeExercise s e).currentSide ≠ some Side.right := by
  unfold initializeExercise
  split_ifs <;> simp

theorem currentExercise_getD (s : WorkoutState) (e : Exercise)
    (he : currentExercise s = some e) :
    ((currentPhase s).getD default).exercises.getD s.exerciseIndex default = e := by
  unfold currentExercise at he
  cases hp : currentPhase s with
  | none => rw [hp] at he; simp at he
  | some p =>
    rw [hp] at he
    have he' : p.exercises.get? s.exerciseIndex = some e := by simpa using he
    simp [List.getD_eq_getElem?_getD, ← List.get?_eq_getElem?, he']

theorem prevStep_lands_on_previous_exercise (u : WorkoutState) (e : Exercise)
    (hwu : u.selectedWorkout.isNone = false)
    (hsw : u.isSwitchingSides = false) (hrr : u.isRoundRest = false)
    (hre : u.isResting = false)
    (hnr : (isBilateralExercise u && (u.currentSide == some Side.right)) = false)
    (hex : 0 < u.exerciseIndex)
    (he : ((currentPhase u).getD default).exercises.getD (u.exerciseIndex - 1) default = e)
    (hbil : e.bilateral = false) :
    (prevStep u).phaseIndex = u.phaseIndex ∧
    (prevStep u).exerciseIndex = u.exerciseIndex - 1 ∧
    (prevStep u).round = u.round ∧
    (prevStep u).currentSide = none := by
  rw [prevStep_eq_walk u hwu hsw hnr hrr hre, prevStepWalk_eq_prevEx u hex, he,
      if_neg (by simp [hbil])]
  exact ⟨rfl, rfl, rfl, rfl⟩

/-- C2 (amended): in non-partner mode, `advance(); retreat()` restores
phaseIndex, exerciseIndex, round and side when the advance (a) leaves a
switching-sides segment, (b) moves from an exercise end into its rest, or
(c) leaves a rest for the next exercise of the same round with the rested
exercise non-bilateral; entering or leaving a round-rest leaves round off by
one, and retreating past a rest whose exercise is bilateral lands on side
'right' instead of the cleared side. -/
theorem advance_retreat_roundtrip (s : WorkoutState) (w : Workout) (e : Exercise)
    (hw : s.selectedWorkout = some w) (hpm : s.partnerMode = false)
    (he : currentExercise s = some e) :
    (s.isSwitchingSides = true → e.bilateral = true → s.currentSide = some Side.left →
      (prevStep (nextStep s).1).phaseIndex = s.phaseIndex ∧
      (prevStep (nextStep s).1).exerciseIndex = s.exerciseIndex ∧
      (prevStep (nextStep s).1).round = s.round ∧
      (prevStep (nextStep s).1).currentSide = s.currentSide) ∧
    (s.isSwitchingSides = false → s.isRoundRest = false → s.isResting = false →
      e.restAfter ≠ 0 →
      (e.bilateral = true → s.currentSide = some Side.right) →
      (e.bilateral = false → s.currentSide = none) →
      (prevStep (nextStep s).1).phaseIndex = s.phaseIndex ∧
      (prevStep (nextStep s).1).exerciseIndex = s.exerciseIndex ∧
      (prevStep (nextStep s).1).round = s.round ∧
      (prevStep (nextStep s).1).currentSide = s.currentSide) ∧
    (s.isSwitchingSides = false → s.isRoundRest = false → s.isResting = true →
      e.bilateral = false → s.currentSide = none →
      s.exerciseIndex + 1 < totalExercises s →
      (prevStep (nextStep s).1).phaseIndex = s.phaseIndex ∧
      (prevStep (nextStep s).1).exerciseIndex = s.exerciseIndex ∧
      (prevStep (nextStep s).1).round = s.round ∧
      (prevStep (nextStep s).1).currentSide = s.currentSide) := by
  have hwn : s.selectedWorkout.isNone = false := by simp [hw]
  refine ⟨?_, ?_, ?_⟩
  · -- (a) leaving the switch sub-segment
    intro hsw hbil hside
    have hg : (s.isSwitchingSides && !(s.partnerMode && isWorkoutPhase s)) = true := by
      simp [hsw, hpm]
    have h1 := nextStep_eq_switchExit s hwn hg
    have he1 : currentExercise (nextStep s).1 = some e := by rw [h1]; exact he
    have hbr : (isBilateralExercise (nextStep s).1 &&
        ((nextStep s).1.currentSide == some Side.right)) = true := by
      simp [isBilateralExercise, he1, hbil]
      rw [h1]
    have h2 := prevStep_eq_right (nextStep s).1 (by rw [h1]; exact hwn)
      (by rw [h1]) hbr
    rw [h2, h1]
    exact ⟨rfl, rfl, rfl, hside.symm⟩
  · -- (b) exercise end into rest
    intro hsw hrr hre hrest hbr hbn
    have hg : (s.isSwitchingSides && !(s.partnerMode && isWorkoutPhase s)) = false := by
      simp [hsw]
    have hbil' : isBilateralExercise s = e.bilateral := by
      simp [isBilateralExercise, he]
    have hbl : (!(s.partnerMode && isWorkoutPhase s) &&
        (isBilateralExercise s && (s.currentSide == some Side.left))) = false := by
      cases hb : e.bilateral
      · simp [hbil', hb]
      · simp [hbil', hb, hbr hb]
    have h1 := nextStep_eq_exerciseEnd s hwn hg hrr hre hbl
    cases hb : e.bilateral
    · -- non-bilateral exercise: side untouched
      rw [if_neg (by simp [hbil', hb])] at h1
      have h2 := nextStepExerciseEnd_eq_restEntry s (by simpa [he] using hrest)
        (by simp [hpm])
      have hrestState : currentExercise (nextStep s).1 = some e := by
        rw [h1, h2]; exact he
      have h3 := prevStep_eq_restingPlain (nextStep s).1
        (by rw [h1, h2]; exact hwn) (by rw [h1, h2]; exact hsw)
        (by simp [isBilateralExercise, hrestState, hb])
        (by rw [h1, h2]; exact hrr) (by rw [h1, h2])
        (by simp [isBilateralExercise, hrestState, hb])
      rw [h3, h1, h2]
      exact ⟨rfl, rfl, rfl, rfl⟩
    · -- bilateral exercise: side was cleared before the rest, retreat
      -- restores the right side
      rw [if_pos (by simp [hbil', hb, hbr hb, hpm])] at h1
      have h2 := nextStepExerciseEnd_eq_restEntry { s with currentSide := none }
        (by simpa [show currentExercise { s with currentSide := none } = some e from he]
          using hrest)
        (by simp [hpm])
      have hrestState : currentExercise (nextStep s).1 = some e := by
        rw [h1, h2]; exact he
      have h3 := prevStep_eq_restingBilateral (nextStep s).1
        (by rw [h1, h2]; exact hwn) (by rw [h1, h2]; exact hsw)
        (by rw [h1, h2]; simp)
        (by rw [h1, h2]; exact hrr) (by rw [h1, h2])
        (by simp [isBilateralExercise, hrestState, hb])
      rw [h3, h1, h2]
      exact ⟨rfl, rfl, rfl, (hbr hb).symm⟩
  · -- (c) leaving a rest for the next exercise in the same round
    intro hsw hrr hre hbil hside hnext
    have hg : (s.isSwitchingSides && !(s.partnerMode && isWorkoutPhase s)) = false := by
      simp [hsw]
    have h1 := nextStep_eq_restExit_next s hwn hg hrr hre hnext
    rw [if_neg (by simp [hpm])] at h1
    simp only [initializeExerciseWithPartnerMode] at h1
    obtain ⟨side2, t2, hsh, -⟩ := initializeExercise_shape
      { s with exerciseIndex := s.exerciseIndex + 1 }
      (((currentPhase s).getD default).exercises.getD (s.exerciseIndex + 1) default)
    have hside2 : side2 ≠ some Side.right := by
      have := initializeExercise_currentSide_ne_right
        { s with exerciseIndex := s.exerciseIndex + 1 }
        (((currentPhase s).getD default).exercises.getD (s.exerciseIndex + 1) default)
      rw [hsh] at this
      simpa using this
    rw [hsh] at h1
    have hland := prevStep_lands_on_previous_exercise (nextStep s).1 e
      (by rw [h1]; exact hwn) (by rw [h1]; exact hsw)
      (by rw [h1]; exact hrr) (by rw [h1])
      (by rw [h1]
          cases hsd : side2 <;> simp_all [isBilateralExercise]
          )
      (by rw [h1]; exact Nat.succ_pos _)
      (by rw [h1]; exact currentExercise_getD s e he) hbil
    refine ⟨?_, ?_, ?_, ?_⟩
    · rw [hland.1, h1]
    · rw [hland.2.1, h1]
      simp
    · rw [hland.2.2.1, h1]
    · rw [hland.2.2.2, hside]

/-- C2 (counterexample): at the scenario workout's round-rest state (round
already incremented to 2), `advance(); retreat()` does not restore `round`:
the retreat from the freshly started round walks back into round 1 instead
of re-entering the round-rest, so round ends one lower than before the
advance. -/
theorem advance_retreat_not_roundtrip_at_round_rest :
    (scenarioState 2).isRoundRest = true ∧ (scenarioState 2).round = 2 ∧
    (prevStep (nextStep (scenarioState 2)).1).phaseIndex =
      (scenarioState 2).phaseIndex ∧
    (prevStep (nextStep (scenarioState 2)).1).exerciseIndex =
      (scenarioState 2).exerciseIndex ∧
    (prevStep (nextStep (scenarioState 2)).1).round = 1 ∧
    (prevStep (nextStep (scenarioState 2)).1).round ≠ (scenarioState 2).round := by
  decide

def twoExercisePhase : Phase :=
  { type := PhaseType.workout, rounds := 1, restBetweenRounds := 0,
    exercises := [scenarioExercise, cooldownExercise] }

def twoExerciseWorkout : Workout := { phases := [twoExercisePhase] }

/-- Resting after the first of two exercises. -/
def restingMidState : WorkoutState :=
  (nextStep (start (initState twoExerciseWorkout)).1).1

theorem advance_retreat_roundtrip_witness :
    ((prevStep (nextStep (bilateralState 1)).1).exerciseIndex =
        (bilateralState 1).exerciseIndex ∧
      (prevStep (nextStep (bilateralState 1)).1).currentSide =
        (bilateralState 1).currentSide) ∧
    ((prevStep (nextStep (scenarioState 0)).1).round = (scenarioState 0).round ∧
      (prevStep (nextStep (scenarioState 0)).1).currentSide =
        (scenarioState 0).currentSide) ∧
    ((prevStep (nextStep restingMidState).1).exerciseIndex =
        restingMidState.exerciseIndex ∧
      (prevStep (nextStep restingMidState).1).round = restingMidState.round) := by
  refine ⟨?_, ?_, ?_⟩
  · have h := (advance_retreat_roundtrip (bilateralState 1) bilateral30Workout
      bilateral30Exercise (by decide) (by decide) (by decide)).1
      (by decide) (by decide) (by decide)
    exact ⟨h.2.1, h.2.2.2⟩
  · have h := (advance_retreat_roundtrip (scenarioState 0) scenarioWorkout
      scenarioExercise (by decide) (by decide) (by decide)).2.1
      (by decide) (by decide) (by decide) (by decide) (by decide) (by decide)
    exact ⟨h.2.2.1, h.2.2.2⟩
  · have h := (advance_retreat_roundtrip restingMidState twoExerciseWorkout
      scenarioExercise (by decide) (by decide) (by decide)).2.2
      (by decide) (by decide) (by decide) (by decide) (by decide) (by decide)
    exact ⟨h.2.1, h.2.2.1⟩
